import Mathlib

/-!
Shallow embedding of the core networking substrate of `tps-server`
(UDP reliable/unreliable messaging, per-client connection state,
handshake transport server, session dispatcher), together with proofs
about the embedded operations.

Modelling conventions, used uniformly below:

* Rust byte strings (`Bytes`, `&[u8]`, `Vec<u8>`) are `List Nat`
  (each element is the byte value).
* Machine integers (`u8/u16/u32/u64/usize`) are `Nat`; where the source
  performs wrapping 16-bit arithmetic (release-mode `+= 1` on a `u16`,
  `wrapping_sub`, release-mode `-` underflow) we take the result modulo
  `2 ^ 16` explicitly.
* `Duration` values are `Nat` (milliseconds); `Duration::as_secs` is
  division by 1000.  `Instant::now()` readings are passed in as an
  explicit `wallNow : Nat` argument.
* Operations that can panic in Rust (out-of-bounds indexing such as
  `pending_acks[0]` or `bytes[5]`) return `Option`: `none` is a panic.
* Fallible operations return `Except` mirroring the Rust `Result`.
* `BTreeMap` is an association list sorted by key in strictly ascending
  order (iteration order of a `BTreeMap` is key order); `VecDeque` is a
  plain list, head = front.
* `f64` (only the smoothed `rtt`) is modelled as `ℚ`; no claim depends
  on floating-point rounding.
-/

/-! ## Small helpers: 16-bit wrapping arithmetic, byte maps -/

/-- Wrapping 16-bit increment: release-mode `u16 += 1`. -/
def succ16 (x : Nat) : Nat := (x + 1) % 65536

/-- Wrapping 16-bit subtraction: `u16::wrapping_sub` (and release-mode `-`). -/
def sub16 (x y : Nat) : Nat := (x + 65536 - y % 65536) % 65536

/-- `octets::varint_len`: length in bytes of the QUIC variable-length
encoding of `v`. -/
def varint_len (v : Nat) : Nat :=
  if v ≤ 63 then 1
  else if v ≤ 16383 then 2
  else if v ≤ 1073741823 then 4
  else 8

/-- Sorted-association-list insert, replacing an existing binding:
model of `BTreeMap::insert` (keys kept strictly ascending). -/
def btInsert {α : Type} (k : Nat) (v : α) : List (Nat × α) → List (Nat × α)
  | [] => [(k, v)]
  | (k', v') :: rest =>
    if k < k' then (k, v) :: (k', v') :: rest
    else if k = k' then (k, v) :: rest
    else (k', v') :: btInsert k v rest

/-- Model of `BTreeMap::remove` (drops the binding of `k`, if any). -/
def btRemove {α : Type} (k : Nat) : List (Nat × α) → List (Nat × α)
  | [] => []
  | (k', v') :: rest => if k = k' then rest else (k', v') :: btRemove k rest

/-- Model of `BTreeMap::get` / lookup by key. -/
def btLookup {α : Type} (k : Nat) : List (Nat × α) → Option α
  | [] => none
  | (k', v') :: rest => if k = k' then some v' else btLookup k rest

/-- Model of `BTreeMap::contains_key`. -/
def btContains {α : Type} (k : Nat) (l : List (Nat × α)) : Bool :=
  (btLookup k l).isSome

/-! ## Errors (`src/error.rs` is not present under `src/`; variants are
taken from their uses in `src/connection.rs`, `src/channel/*.rs` and the
spec's §7 error taxonomy) -/

/-- Modelled from the spec: `src/error.rs` (module `error`) is missing from
the sources; §7 lists `ReliableChannelMaxMemoryReached` as the channel
memory error, and `src/channel/reliable.rs` constructs exactly this
variant. -/
inductive ChannelError where
  | ReliableChannelMaxMemoryReached
deriving DecidableEq, Repr

/-- `SerializationError` from `src/packet.rs`. -/
inductive SerializationError where
  | BufferTooShort
  | InvalidNumSlices
  | InvalidAckRange
  | InvalidPacketType
  | InvalidChannelId
deriving DecidableEq, Repr

/-- Modelled from the spec: `src/error.rs` (module `error`) is missing from
the sources; §7 lists the `DisconnectReason` variants, and
`src/connection.rs` constructs exactly these. -/
inductive DisconnectReason where
  | DisconnectedByClient
  | DisconnectedByServer
  | Transport
  | SendChannelError (channel_id : Nat) (error : ChannelError)
  | ReceiveChannelError (channel_id : Nat) (error : ChannelError)
  | PacketDeserialization (err : SerializationError)
  | PacketSerialization (err : SerializationError)
deriving DecidableEq, Repr

/-! ## Packets (`src/packet.rs`) -/

/-- `MAX_MESSAGES_LENGTH` from `src/constants.rs`. -/
def MAX_MESSAGES_LENGTH : Nat := 1200

/-- `TRANSPORT_MAX_PACKET_BYTES` from `src/constants.rs`. -/
def TRANSPORT_MAX_PACKET_BYTES : Nat := 1400

/-- The three wire frames of `src/packet.rs`. -/
inductive Packet where
  | SmallReliable (channel_id packet_type packet_process_time sequence_id
      acked_seq_id acked_mask : Nat) (messages : List (Nat × List Nat))
  | SmallUnreliable (channel_id : Nat) (messages : List (List Nat))
  | Ack (channel_id packet_type packet_process_time sequence_id
      acked_seq_id acked_mask end_posfix : Nat)
deriving DecidableEq, Repr

/-- `Packet::sequence_id`. -/
def Packet.seqId : Packet → Nat
  | .SmallReliable _ _ _ sequence_id _ _ _ => sequence_id
  | .SmallUnreliable _ _ => 0
  | .Ack _ _ _ sequence_id _ _ _ => sequence_id

/-- The `(message_id, payload)` pairs carried by a reliable payload
packet (empty for the other frames). -/
def Packet.relMessages : Packet → List (Nat × List Nat)
  | .SmallReliable _ _ _ _ _ _ messages => messages
  | _ => []

/-! ## Reliable send channel (`src/channel/reliable.rs`) -/

/-- `UnackedMessage::Small`. -/
structure UnackedMessage where
  message : List Nat
  last_sent : Option Nat
deriving DecidableEq, Repr

/-- `SendChannelReliable`.  `unacked_messages` is a `BTreeMap` modelled
as an association list with strictly ascending keys. -/
structure SendChannelReliable where
  channel_id : Nat
  unacked_messages : List (Nat × UnackedMessage)
  next_package_sequence_id : Nat
  next_message_id : Nat
  resend_time : Nat
  max_memory_usage_bytes : Nat
  memory_usage_bytes : Nat
deriving DecidableEq, Repr

/-- `SendChannelReliable::new`. -/
def SendChannelReliable.new (channel_id resend_time max_memory_usage_bytes : Nat) :
    SendChannelReliable :=
  { channel_id := channel_id
    unacked_messages := []
    next_package_sequence_id := 0
    next_message_id := 0
    resend_time := resend_time
    max_memory_usage_bytes := max_memory_usage_bytes
    memory_usage_bytes := 0 }

/-- `SendChannelReliable::available_memory`. -/
def SendChannelReliable.available_memory (c : SendChannelReliable) : Nat :=
  c.max_memory_usage_bytes - c.memory_usage_bytes

/-- `SendChannelReliable::can_send_message`. -/
def SendChannelReliable.can_send_message (c : SendChannelReliable)
    (size_bytes : Nat) : Bool :=
  size_bytes + c.memory_usage_bytes ≤ c.max_memory_usage_bytes

/-- `SendChannelReliable::send_message`.  Returns the updated channel and
the `Result` value; on `Err` the channel is unchanged (the source
returns before mutating). -/
def SendChannelReliable.send_message (c : SendChannelReliable)
    (message : List Nat) : Except ChannelError SendChannelReliable :=
  if c.memory_usage_bytes + message.length > c.max_memory_usage_bytes then
    .error .ReliableChannelMaxMemoryReached
  else
    .ok { c with
      memory_usage_bytes := c.memory_usage_bytes + message.length
      unacked_messages :=
        btInsert c.next_message_id ⟨message, none⟩ c.unacked_messages
      next_message_id := c.next_message_id + 1 }

/-- `SendChannelReliable::process_message_ack`. -/
def SendChannelReliable.process_message_ack (c : SendChannelReliable)
    (message_id : Nat) : SendChannelReliable :=
  match btLookup message_id c.unacked_messages with
  | none => c
  | some um =>
    { c with
      unacked_messages := btRemove message_id c.unacked_messages
      memory_usage_bytes := c.memory_usage_bytes - um.message.length }

/-- The emission guard of the `get_packets_to_send` loop: the message is
appended to the current packet iff the remaining byte budget covers it
and (if it was sent before) at least `resend_time` has elapsed. -/
def shouldEmit (resend_time now avail : Nat) (um : UnackedMessage) : Bool :=
  if avail < um.message.length then false
  else
    match um.last_sent with
    | some ls => ¬ (now - ls < resend_time)
    | none => true

/-- Accumulator state of the `get_packets_to_send` loop over
`unacked_messages`. -/
structure GptsState where
  avail : Nat
  packets : List Packet
  small : List (Nat × List Nat)
  smallBytes : Nat
  seq : Nat
  entries : List (Nat × UnackedMessage)
deriving Repr

/-- One iteration of the `get_packets_to_send` loop body
(`src/channel/reliable.rs`, lines 78–119).  `entries` collects the
(possibly `last_sent`-updated) map entries in order. -/
def gptsStep (channel_id resend_time now : Nat) (st : GptsState)
    (e : Nat × UnackedMessage) : GptsState :=
  if shouldEmit resend_time now st.avail e.2 then
    let avail := st.avail - e.2.message.length
    let serialized_size := e.2.message.length
      + varint_len e.2.message.length + varint_len e.1
    let st :=
      if st.smallBytes + serialized_size > MAX_MESSAGES_LENGTH then
        { st with
          packets := st.packets ++
            [Packet.SmallReliable channel_id 0 0 st.seq 65535 0 st.small]
          small := []
          smallBytes := 0
          seq := succ16 st.seq }
      else st
    { st with
      avail := avail
      smallBytes := st.smallBytes + serialized_size
      small := st.small ++ [(e.1, e.2.message)]
      entries := st.entries ++ [(e.1, ⟨e.2.message, some now⟩)] }
  else
    { st with entries := st.entries ++ [e] }

/-- `SendChannelReliable::get_packets_to_send`.  Result: the produced
packets, the remaining `available_bytes`, and the updated channel. -/
def SendChannelReliable.get_packets_to_send (c : SendChannelReliable)
    (available_bytes now : Nat) : List Packet × Nat × SendChannelReliable :=
  if c.unacked_messages.isEmpty then ([], available_bytes, c)
  else
    let st := c.unacked_messages.foldl
      (gptsStep c.channel_id c.resend_time now)
      ⟨available_bytes, [], [], 0, c.next_package_sequence_id, []⟩
    let final :=
      if st.small.isEmpty then (st.packets, st.seq)
      else
        (st.packets ++
          [Packet.SmallReliable c.channel_id 0 0 st.seq 65535 0 st.small],
         succ16 st.seq)
    (final.1, st.avail,
     { c with
        unacked_messages := st.entries
        next_package_sequence_id := final.2 })

/-! ## Reliable receive channel (`src/channel/reliable.rs`) -/

/-- `ReceiveChannelReliable` (the `ReliableOrder::Ordered` case is the
only constructible one; `Reliable unordered` is `unreachable!`). -/
structure ReceiveChannelReliable where
  messages : List (Nat × List Nat)
  oldest_pending_message_id : Nat
  memory_usage_bytes : Nat
  max_memory_usage_bytes : Nat
deriving DecidableEq, Repr

/-- `ReceiveChannelReliable::new` (with `ordered = Some(true)`, the only
case that does not hit `unreachable!`). -/
def ReceiveChannelReliable.new (max_memory_usage_bytes : Nat) :
    ReceiveChannelReliable :=
  { messages := []
    oldest_pending_message_id := 0
    memory_usage_bytes := 0
    max_memory_usage_bytes := max_memory_usage_bytes }

/-- `ReceiveChannelReliable::process_message`. -/
def ReceiveChannelReliable.process_message (c : ReceiveChannelReliable)
    (message : List Nat) (message_id : Nat) :
    Except ChannelError ReceiveChannelReliable :=
  if message_id < c.oldest_pending_message_id then .ok c
  else if btContains message_id c.messages then .ok c
  else if c.memory_usage_bytes + message.length > c.max_memory_usage_bytes then
    .error .ReliableChannelMaxMemoryReached
  else
    .ok { c with
      memory_usage_bytes := c.memory_usage_bytes + message.length
      messages := btInsert message_id message c.messages }

/-- `ReceiveChannelReliable::receive_message`. -/
def ReceiveChannelReliable.receive_message (c : ReceiveChannelReliable) :
    Option (List Nat) × ReceiveChannelReliable :=
  match btLookup c.oldest_pending_message_id c.messages with
  | none => (none, c)
  | some message =>
    (some message,
     { c with
        messages := btRemove c.oldest_pending_message_id c.messages
        oldest_pending_message_id := c.oldest_pending_message_id + 1
        memory_usage_bytes := c.memory_usage_bytes - message.length })

/-! ## Unreliable channels (`src/channel/unreliable.rs`) -/

/-- `SendChannelUnreliable`. -/
structure SendChannelUnreliable where
  channel_id : Nat
  unreliable_messages : List (List Nat)
  max_memory_usage_bytes : Nat
  memory_usage_bytes : Nat
deriving DecidableEq, Repr

/-- `SendChannelUnreliable::new`. -/
def SendChannelUnreliable.new (channel_id max_memory_usage_bytes : Nat) :
    SendChannelUnreliable :=
  ⟨channel_id, [], max_memory_usage_bytes, 0⟩

/-- `SendChannelUnreliable::can_send_message`. -/
def SendChannelUnreliable.can_send_message (c : SendChannelUnreliable)
    (size_bytes : Nat) : Bool :=
  size_bytes + c.memory_usage_bytes ≤ c.max_memory_usage_bytes

/-- `SendChannelUnreliable::available_memory`. -/
def SendChannelUnreliable.available_memory (c : SendChannelUnreliable) : Nat :=
  c.max_memory_usage_bytes - c.memory_usage_bytes

/-- `SendChannelUnreliable::send_message` (overflow drops the message;
the over-length warning has no state effect). -/
def SendChannelUnreliable.send_message (c : SendChannelUnreliable)
    (message : List Nat) : SendChannelUnreliable :=
  if c.memory_usage_bytes + message.length > c.max_memory_usage_bytes then c
  else
    { c with
      memory_usage_bytes := c.memory_usage_bytes + message.length
      unreliable_messages := c.unreliable_messages ++ [message] }

/-- Accumulator of the `SendChannelUnreliable::get_packets_to_send`
drain loop. -/
structure GpusState where
  avail : Nat
  memory : Nat
  packets : List Packet
  small : List (List Nat)
  smallBytes : Nat
deriving Repr

/-- One iteration of the unreliable drain loop (pops the front message;
drops it if the budget is insufficient). -/
def gpusStep (channel_id : Nat) (st : GpusState) (message : List Nat) :
    GpusState :=
  let st := { st with memory := st.memory - message.length }
  if st.avail < message.length then st
  else
    let avail := st.avail - message.length
    let serialized_size := message.length + varint_len message.length
    let st :=
      if st.smallBytes + serialized_size > MAX_MESSAGES_LENGTH then
        { st with
          packets := st.packets ++ [Packet.SmallUnreliable channel_id st.small]
          small := []
          smallBytes := 0 }
      else st
    { st with
      avail := avail
      smallBytes := st.smallBytes + serialized_size
      small := st.small ++ [message] }

/-- `SendChannelUnreliable::get_packets_to_send`. -/
def SendChannelUnreliable.get_packets_to_send (c : SendChannelUnreliable)
    (available_bytes : Nat) : List Packet × Nat × SendChannelUnreliable :=
  let st := c.unreliable_messages.foldl (gpusStep c.channel_id)
    ⟨available_bytes, c.memory_usage_bytes, [], [], 0⟩
  let packets :=
    if st.small.isEmpty then st.packets
    else st.packets ++ [Packet.SmallUnreliable c.channel_id st.small]
  (packets, st.avail,
   { c with unreliable_messages := [], memory_usage_bytes := st.memory })

/-- `ReceiveChannelUnreliable`. -/
structure ReceiveChannelUnreliable where
  channel_id : Nat
  messages : List (List Nat)
  max_memory_usage_bytes : Nat
  memory_usage_bytes : Nat
deriving DecidableEq, Repr

/-- `ReceiveChannelUnreliable::new`. -/
def ReceiveChannelUnreliable.new (channel_id max_memory_usage_bytes : Nat) :
    ReceiveChannelUnreliable :=
  ⟨channel_id, [], max_memory_usage_bytes, 0⟩

/-- `ReceiveChannelUnreliable::process_message`. -/
def ReceiveChannelUnreliable.process_message (c : ReceiveChannelUnreliable)
    (message : List Nat) : ReceiveChannelUnreliable :=
  if c.memory_usage_bytes + message.length > c.max_memory_usage_bytes then c
  else
    { c with
      memory_usage_bytes := c.memory_usage_bytes + message.length
      messages := c.messages ++ [message] }

/-- `ReceiveChannelUnreliable::receive_message`. -/
def ReceiveChannelUnreliable.receive_message (c : ReceiveChannelUnreliable) :
    Option (List Nat) × ReceiveChannelUnreliable :=
  match c.messages with
  | [] => (none, c)
  | message :: rest =>
    (some message,
     { c with
        messages := rest
        memory_usage_bytes := c.memory_usage_bytes - message.length })

/-! ## The octets byte codec used by `src/packet.rs`

The `octets` crate reads and writes integers in network byte order
(big-endian) and uses QUIC variable-length integers.  Bytes are read
from the front of a `List Nat`. -/

/-- `OctetsMut::put_u16` byte image (network byte order). -/
def putU16 (v : Nat) : List Nat := [v / 256 % 256, v % 256]

/-- `OctetsMut::put_u32` byte image. -/
def putU32 (v : Nat) : List Nat :=
  [v / 16777216 % 256, v / 65536 % 256, v / 256 % 256, v % 256]

/-- `OctetsMut::put_varint` byte image (QUIC varint; values at or above
`2 ^ 62` are unencodable, which the caller surfaces as
`BufferTooShort`). -/
def putVarint (v : Nat) : Option (List Nat) :=
  if v ≤ 63 then some [v]
  else if v ≤ 16383 then some [64 + v / 256, v % 256]
  else if v ≤ 1073741823 then
    some [128 + v / 16777216, v / 65536 % 256, v / 256 % 256, v % 256]
  else if v < 4611686018427387904 then
    some [192 + v / 72057594037927936,
      v / 281474976710656 % 256, v / 1099511627776 % 256,
      v / 4294967296 % 256, v / 16777216 % 256, v / 65536 % 256,
      v / 256 % 256, v % 256]
  else none

/-- `Octets::get_u8`. -/
def getU8 : List Nat → Except SerializationError (Nat × List Nat)
  | [] => .error .BufferTooShort
  | b :: rest => .ok (b, rest)

/-- `Octets::get_u16` (network byte order). -/
def getU16 : List Nat → Except SerializationError (Nat × List Nat)
  | b0 :: b1 :: rest => .ok (b0 * 256 + b1, rest)
  | _ => .error .BufferTooShort

/-- `Octets::get_u32` (network byte order). -/
def getU32 : List Nat → Except SerializationError (Nat × List Nat)
  | b0 :: b1 :: b2 :: b3 :: rest =>
    .ok (((b0 * 256 + b1) * 256 + b2) * 256 + b3, rest)
  | _ => .error .BufferTooShort

/-- Big-endian accumulation of `n` further bytes onto `acc`. -/
def getBeBytes (acc : Nat) : Nat → List Nat →
    Except SerializationError (Nat × List Nat)
  | 0, l => .ok (acc, l)
  | n + 1, [] => (fun _ => .error .BufferTooShort) n
  | n + 1, b :: rest => getBeBytes (acc * 256 + b) n rest

/-- `Octets::get_varint` (QUIC varint: the top two bits of the first
byte give the total length 1/2/4/8). -/
def getVarint (l : List Nat) : Except SerializationError (Nat × List Nat) :=
  match l with
  | [] => .error .BufferTooShort
  | b :: rest => getBeBytes (b % 64) (2 ^ (b / 64) - 1) rest

/-- Splitting off `n` leading bytes (`Octets::get_bytes`). -/
def getBytesN (n : Nat) (l : List Nat) :
    Except SerializationError (List Nat × List Nat) :=
  if n ≤ l.length then .ok (l.take n, l.drop n) else .error .BufferTooShort

/-- `Octets::get_bytes_with_varint_length`. -/
def getBytesWithVarintLength (l : List Nat) :
    Except SerializationError (List Nat × List Nat) := do
  let (n, rest) ← getVarint l
  getBytesN n rest

/-! ## `Packet::from_bytes` / `Packet::to_bytes` (`src/packet.rs`) -/

/-- The message-reading loop of the `SmallUnreliable` branch of
`Packet::from_bytes`. -/
def readUnrelMsgs : Nat → List Nat →
    Except SerializationError (List (List Nat) × List Nat)
  | 0, l => .ok ([], l)
  | n + 1, l => do
    let (payload, rest) ← getBytesWithVarintLength l
    let (msgs, rest) ← readUnrelMsgs n rest
    .ok (payload :: msgs, rest)

/-- The message-reading loop of the `SmallReliable` branch of
`Packet::from_bytes`. -/
def readRelMsgs : Nat → List Nat →
    Except SerializationError (List (Nat × List Nat) × List Nat)
  | 0, l => .ok ([], l)
  | n + 1, l => do
    let (message_id, rest) ← getVarint l
    let (payload, rest) ← getBytesWithVarintLength rest
    let (msgs, rest) ← readRelMsgs n rest
    .ok ((message_id, payload) :: msgs, rest)

/-- `Packet::from_bytes`. -/
def Packet.from_bytes (l : List Nat) : Except SerializationError Packet := do
  let (channel_id, rest) ← getU8 l
  match channel_id with
  | 0 => do
    let (messages_len, rest) ← getU16 rest
    let (messages, _) ← readUnrelMsgs messages_len rest
    .ok (Packet.SmallUnreliable channel_id messages)
  | 1 => do
    let (packet_type, rest) ← getU16 rest
    let (packet_process_time, rest) ← getU16 rest
    let (sequence_id, rest) ← getU16 rest
    let (acked_seq_id, rest) ← getU16 rest
    let (acked_mask, rest) ← getU32 rest
    match packet_type with
    | 0 => do
      let (messages_len, rest) ← getU16 rest
      let (messages, _) ← readRelMsgs messages_len rest
      .ok (Packet.SmallReliable channel_id packet_type packet_process_time
        sequence_id acked_seq_id acked_mask messages)
    | 1 => do
      let (end_posfix, _) ← getU8 rest
      .ok (Packet.Ack channel_id packet_type packet_process_time
        sequence_id acked_seq_id acked_mask end_posfix)
    | _ => .error .InvalidPacketType
  | _ => .error .InvalidChannelId

/-- Byte image of the message loop in the `SmallReliable` arm of
`Packet::to_bytes` (`put_varint` id, `put_varint` length, raw bytes). -/
def serRelMsgs : List (Nat × List Nat) → Option (List Nat)
  | [] => some []
  | (message_id, message) :: rest => do
    let v1 ← putVarint message_id
    let v2 ← putVarint message.length
    let r ← serRelMsgs rest
    some (v1 ++ v2 ++ message ++ r)

/-- Byte image of the message loop in the `SmallUnreliable` arm of
`Packet::to_bytes`. -/
def serUnrelMsgs : List (List Nat) → Option (List Nat)
  | [] => some []
  | message :: rest => do
    let v ← putVarint message.length
    let r ← serUnrelMsgs rest
    some (v ++ message ++ r)

/-- `Packet::to_bytes` into a buffer of capacity `cap` bytes (the
connection always passes a 1400-byte buffer); a write beyond the
capacity, or an unencodable varint, fails with `BufferTooShort`. -/
def Packet.to_bytes (cap : Nat) (p : Packet) :
    Except SerializationError (List Nat) :=
  let body : Option (List Nat) :=
    match p with
    | .SmallReliable channel_id packet_type packet_process_time sequence_id
        acked_seq_id acked_mask messages => do
      let m ← serRelMsgs messages
      some ([channel_id % 256] ++ putU16 packet_type
        ++ putU16 packet_process_time ++ putU16 sequence_id
        ++ putU16 acked_seq_id ++ putU32 acked_mask
        ++ putU16 messages.length ++ m)
    | .SmallUnreliable channel_id messages => do
      let m ← serUnrelMsgs messages
      some ([channel_id % 256] ++ putU16 messages.length ++ m)
    | .Ack channel_id packet_type packet_process_time sequence_id
        acked_seq_id acked_mask end_posfix =>
      some ([channel_id % 256] ++ putU16 packet_type
        ++ putU16 packet_process_time ++ putU16 sequence_id
        ++ putU16 acked_seq_id ++ putU32 acked_mask ++ [end_posfix % 256])
  match body with
  | none => .error .BufferTooShort
  | some bytes =>
    if bytes.length ≤ cap then .ok bytes else .error .BufferTooShort

/-! ## Connection statistics (`src/connection_stats.rs` is not present
under `src/`) -/

/-- Modelled from the spec: `src/connection_stats.rs` (struct
`ConnectionStats`) is missing from the sources.  §4.F describes rolling
windows of bytes/packets sent/received/acked with derived rates; no
claim depends on the tracker's internals, so it is modelled as plain
cumulative counters with the operations used by `src/connection.rs`. -/
structure ConnectionStats where
  packets_sent_count : Nat
  packets_acked_count : Nat
  bytes_sent_total : Nat
  bytes_received_total : Nat
deriving DecidableEq, Repr

/-- Modelled from the spec: fresh statistics tracker (all counters 0). -/
def ConnectionStats.new : ConnectionStats := ⟨0, 0, 0, 0⟩

/-- Modelled from the spec: time-window maintenance of the tracker
(prunes rolling windows; no counter visible to any claim changes). -/
def ConnectionStats.update (s : ConnectionStats) (_current_time : Nat) :
    ConnectionStats := s

/-- Modelled from the spec: account one received packet of `len` bytes. -/
def ConnectionStats.received_packet (s : ConnectionStats) (len : Nat) :
    ConnectionStats :=
  { s with bytes_received_total := s.bytes_received_total + len }

/-- Modelled from the spec: account `count` sent packets of `bytes`
total bytes. -/
def ConnectionStats.sent_packets (s : ConnectionStats) (count bytes : Nat) :
    ConnectionStats :=
  { s with
    packets_sent_count := s.packets_sent_count + count
    bytes_sent_total := s.bytes_sent_total + bytes }

/-- Modelled from the spec: account one acked packet. -/
def ConnectionStats.acked_packet (s : ConnectionStats)
    (_sent_at _current_time : Nat) : ConnectionStats :=
  { s with packets_acked_count := s.packets_acked_count + 1 }

/-! ## Channel configuration (`src/channel/mod.rs` is not present under
`src/`) -/

/-- Modelled from the spec: `src/channel/mod.rs` (`SendType`) is missing
from the sources; `src/connection.rs` matches on
`SendType::ReliableOrdered { resend_time }` and §6 lists `resend_time`
as the per-reliable-channel configuration. -/
inductive SendType where
  | Unreliable
  | ReliableOrdered (resend_time : Nat)
deriving DecidableEq, Repr

/-- Modelled from the spec: `src/channel/mod.rs` (`ChannelConfig`) is
missing from the sources; `src/connection.rs` reads the fields
`channel_id`, `max_memory_usage_bytes` and `send_type`, which §6 lists
as the per-channel configuration. -/
structure ChannelConfig where
  channel_id : Nat
  max_memory_usage_bytes : Nat
  send_type : SendType
deriving DecidableEq, Repr

/-! ## Per-client connection (`src/connection.rs`) -/

/-- `PacketSentInfo`. -/
inductive PacketSentInfo where
  | None
  | ReliableMessages (channel_id : Nat) (message_ids : List Nat)
deriving DecidableEq, Repr

/-- `PacketSent`. -/
structure PacketSent where
  sent_at : Nat
  info : PacketSentInfo
deriving DecidableEq, Repr

/-- `ChannelOrder`. -/
inductive ChannelOrder where
  | Reliable (channel_id : Nat)
  | Unreliable (channel_id : Nat)
deriving DecidableEq, Repr

/-- `ClientConnectionStatus`. -/
inductive ClientConnectionStatus where
  | Connected
  | Connecting
  | Disconnected (reason : DisconnectReason)
deriving DecidableEq, Repr

/-- `f64::EPSILON` (2⁻⁵²), used by the RTT update. -/
def f64Epsilon : ℚ := 1 / 4503599627370496

/-- `UnityClient` (`src/connection.rs`). -/
structure UnityClient where
  current_time : Nat
  sent_packets : List (Nat × PacketSent)
  pending_acks : List Nat
  new_ack_to_send : Bool
  ack_process_start_instant : Nat
  channel_send_order : List ChannelOrder
  send_unreliable_channel : SendChannelUnreliable
  receive_unreliable_channel : ReceiveChannelUnreliable
  send_reliable_channel : SendChannelReliable
  receive_reliable_channel : ReceiveChannelReliable
  stats : ConnectionStats
  available_bytes_per_tick : Nat
  connection_status : ClientConnectionStatus
  rtt : ℚ
  player_id : List Nat
deriving DecidableEq, Repr

/-- `UnityClient::from_channels` (`wallNow` models the
`Instant::now()` captured into `ack_process_start_instant`).  Returns
`none` only in the `unreachable!` case of a non-`ReliableOrdered` send
config. -/
def UnityClient.from_channels (wallNow available_bytes_per_tick : Nat)
    (send_unreliable_channel_config send_reliable_channel_config
     receive_unreliable_channel_config receive_reliable_channel_config :
       ChannelConfig) : Option UnityClient :=
  match send_reliable_channel_config.send_type with
  | .Unreliable => none
  | .ReliableOrdered send_reliable_resend_time =>
    some
      { current_time := 0
        sent_packets := []
        pending_acks := []
        new_ack_to_send := false
        ack_process_start_instant := wallNow
        channel_send_order :=
          [ChannelOrder.Unreliable send_reliable_channel_config.channel_id,
           ChannelOrder.Unreliable send_unreliable_channel_config.channel_id]
        send_unreliable_channel := SendChannelUnreliable.new
          send_unreliable_channel_config.channel_id
          send_unreliable_channel_config.max_memory_usage_bytes
        receive_unreliable_channel := ReceiveChannelUnreliable.new
          receive_unreliable_channel_config.channel_id
          receive_unreliable_channel_config.max_memory_usage_bytes
        send_reliable_channel := SendChannelReliable.new
          send_reliable_channel_config.channel_id
          send_reliable_resend_time
          send_reliable_channel_config.max_memory_usage_bytes
        receive_reliable_channel := ReceiveChannelReliable.new
          receive_reliable_channel_config.max_memory_usage_bytes
        stats := ConnectionStats.new
        rtt := 0
        available_bytes_per_tick := available_bytes_per_tick
        connection_status := ClientConnectionStatus.Connecting
        player_id := [] }

/-- `UnityClient::is_connected`. -/
def UnityClient.is_connected (c : UnityClient) : Bool :=
  match c.connection_status with
  | .Connected => true
  | _ => false

/-- `UnityClient::is_connecting`. -/
def UnityClient.is_connecting (c : UnityClient) : Bool :=
  match c.connection_status with
  | .Connecting => true
  | _ => false

/-- `UnityClient::is_disconnected`. -/
def UnityClient.is_disconnected (c : UnityClient) : Bool :=
  match c.connection_status with
  | .Disconnected _ => true
  | _ => false

/-- `UnityClient::set_connected`. -/
def UnityClient.set_connected (c : UnityClient) (player_id : List Nat) :
    UnityClient :=
  if c.is_disconnected then c
  else
    { c with
      connection_status := ClientConnectionStatus.Connected
      player_id := player_id }

/-- `UnityClient::set_connecting`. -/
def UnityClient.set_connecting (c : UnityClient) : UnityClient :=
  if c.is_disconnected then c
  else { c with connection_status := ClientConnectionStatus.Connecting }

/-- `UnityClient::disconnect_with_reason`. -/
def UnityClient.disconnect_with_reason (c : UnityClient)
    (reason : DisconnectReason) : UnityClient :=
  if c.is_disconnected then c
  else { c with connection_status := ClientConnectionStatus.Disconnected reason }

/-- `UnityClient::disconnect`. -/
def UnityClient.disconnect (c : UnityClient) : UnityClient :=
  c.disconnect_with_reason DisconnectReason.DisconnectedByClient

/-- `UnityClient::disconnect_due_to_transport`. -/
def UnityClient.disconnect_due_to_transport (c : UnityClient) : UnityClient :=
  c.disconnect_with_reason DisconnectReason.Transport

/-- `UnityClient::send_message`.  `none` is the panic on an invalid
channel id (after the disconnected guard, which returns first). -/
def UnityClient.send_message (c : UnityClient) (channel_id : Nat)
    (message : List Nat) : Option UnityClient :=
  if c.is_disconnected then some c
  else
    match channel_id with
    | 0 => some { c with
        send_unreliable_channel :=
          c.send_unreliable_channel.send_message message }
    | 1 =>
      match c.send_reliable_channel.send_message message with
      | .ok ch => some { c with send_reliable_channel := ch }
      | .error error => some (c.disconnect_with_reason
          (DisconnectReason.SendChannelError channel_id error))
    | _ => none

/-- `UnityClient::receive_message`.  `none` is the panic on an invalid
channel id. -/
def UnityClient.receive_message (c : UnityClient) (channel_id : Nat) :
    Option (Option (List Nat) × UnityClient) :=
  if c.is_disconnected then some (none, c)
  else
    match channel_id with
    | 0 =>
      let r := c.receive_unreliable_channel.receive_message
      some (r.1, { c with receive_unreliable_channel := r.2 })
    | 1 =>
      let r := c.receive_reliable_channel.receive_message
      some (r.1, { c with receive_reliable_channel := r.2 })
    | _ => none

/-- The lost-packet scan of `UnityClient::update`: collects leading
entries of `sent_packets` (sequence order) older than 3 s, stopping at
the first fresh one. -/
def lostPacketsScan (now : Nat) : List (Nat × PacketSent) → List Nat
  | [] => []
  | (sequence, sent_packet) :: rest =>
    if now - sent_packet.sent_at ≥ 3000 then
      sequence :: lostPacketsScan now rest
    else []

/-- `UnityClient::update`. -/
def UnityClient.update (c : UnityClient) (duration : Nat) : UnityClient :=
  let current_time := c.current_time + duration
  let stats := c.stats.update current_time
  let lost_packets := lostPacketsScan current_time c.sent_packets
  { c with
    current_time := current_time
    stats := stats
    sent_packets :=
      lost_packets.foldl (fun m s => btRemove s m) c.sent_packets }

/-- `UnityClient::add_pending_ack` (`src/connection.rs`, lines
558–573).  The source evaluates `self.pending_acks[0]` before any
emptiness check, so an empty deque is an index-out-of-bounds panic:
`none`. -/
def UnityClient.add_pending_ack (c : UnityClient) (wallNow sequence_id : Nat) :
    Option UnityClient :=
  match c.pending_acks with
  | [] => none
  | front :: _ =>
    if front ≥ sequence_id || c.pending_acks.contains sequence_id then some c
    else
      let pa :=
        if c.pending_acks.length ≥ 32 then c.pending_acks.tail
        else c.pending_acks
      let index_to_insert :=
        (pa.findIdx? (fun x => decide (x > sequence_id))).getD pa.length
      some { c with
        new_ack_to_send := true
        ack_process_start_instant := wallNow
        pending_acks :=
          pa.take index_to_insert ++ [sequence_id] ++ pa.drop index_to_insert }

/-- Iterated wrapping 16-bit decrement (`seq_id = seq_id - 1` applied
`k` times). -/
def sub16Iter : Nat → Nat → Nat
  | 0, seq_id => seq_id
  | k + 1, seq_id => sub16Iter k (sub16 seq_id 1)

/-- The mask loop of `UnityClient::create_acked_bytes`: `rem` remaining
iterations, `i` the current bit index, `mask` the accumulator;
`seq_id = seq_id - 1` is release-mode wrapping (`sub16`). -/
def ackMaskGo (pending_acks : List Nat) : Nat → Nat → Nat → Nat → Nat
  | 0, _, mask, _ => mask
  | rem + 1, seq_id, mask, i =>
    ackMaskGo pending_acks rem (sub16 seq_id 1)
      (if pending_acks.contains seq_id then mask ||| (1 <<< i) else mask)
      (i + 1)

/-- `UnityClient::create_acked_bytes` as a function of the
`pending_acks` deque (the method reads no other state). -/
def createAckedBytes (pending_acks : List Nat) : Option (Nat × Nat) :=
  match pending_acks.getLast? with
  | none => none
  | some last_pending_ack =>
    some (last_pending_ack, ackMaskGo pending_acks 32 last_pending_ack 0 0)

/-- `UnityClient::create_acked_bytes`. -/
def UnityClient.create_acked_bytes (c : UnityClient) : Option (Nat × Nat) :=
  createAckedBytes c.pending_acks

/-- The decode loop of `UnityClient::get_acked_packet_ids`. -/
def gapiGo (ack_seq ack_mask : Nat) : Nat → Nat → List Nat
  | 0, _ => []
  | rem + 1, i =>
    (if ack_mask &&& (1 <<< i) ≠ 0 then [sub16 ack_seq i] else []) ++
      gapiGo ack_seq ack_mask rem (i + 1)

/-- `UnityClient::get_acked_packet_ids` (associated function). -/
def get_acked_packet_ids (ack_seq ack_mask : Nat) : List Nat :=
  gapiGo ack_seq ack_mask 32 0

/-- The reliable-message loop of `UnityClient::process_packet`
(disconnects and returns on the first receive-channel error, leaving
the remaining messages unprocessed). -/
def processRelMsgsLoop (channel_id : Nat) :
    List (Nat × List Nat) → UnityClient → UnityClient
  | [], c => c
  | (message_id, message) :: rest, c =>
    match c.receive_reliable_channel.process_message message message_id with
    | .error error =>
      c.disconnect_with_reason
        (DisconnectReason.ReceiveChannelError channel_id error)
    | .ok ch =>
      processRelMsgsLoop channel_id rest
        { c with receive_reliable_channel := ch }

/-- One acked sequence id of the `Packet::Ack` branch of
`UnityClient::process_packet`: drop the `sent_packets` entry, account
the ack, update the smoothed RTT (`ℚ` model of the `f64` EWMA), and ack
the reliable messages the packet carried. -/
def UnityClient.processAckedSequence (c : UnityClient)
    (packet_sequence : Nat) : UnityClient :=
  match btLookup packet_sequence c.sent_packets with
  | none => c
  | some sent_packet =>
    let c := { c with
      sent_packets := btRemove packet_sequence c.sent_packets
      stats := c.stats.acked_packet sent_packet.sent_at c.current_time }
    let rtt : ℚ := ((c.current_time - sent_packet.sent_at : Nat) : ℚ) / 1000
    let c :=
      if c.rtt < f64Epsilon then { c with rtt := rtt }
      else { c with rtt := c.rtt * (7 / 8) + rtt * (1 / 8) }
    match sent_packet.info with
    | .ReliableMessages _ message_ids =>
      { c with
        send_reliable_channel := message_ids.foldl
          SendChannelReliable.process_message_ack c.send_reliable_channel }
    | .None => c

/-- `UnityClient::process_packet` (`wallNow` models the
`Instant::now()` read in `add_pending_ack`; `none` is the
`pending_acks[0]` panic). -/
def UnityClient.process_packet (c : UnityClient) (wallNow : Nat)
    (packet : List Nat) : Option UnityClient :=
  if c.is_disconnected then some c
  else
    let c := { c with stats := c.stats.received_packet packet.length }
    match Packet.from_bytes packet with
    | .error err =>
      some (c.disconnect_with_reason
        (DisconnectReason.PacketDeserialization err))
    | .ok (Packet.SmallReliable channel_id _ _ sequence_id _ _ messages) =>
      match c.add_pending_ack wallNow sequence_id with
      | none => none
      | some c => some (processRelMsgsLoop channel_id messages c)
    | .ok (Packet.SmallUnreliable _ messages) =>
      some { c with
        receive_unreliable_channel := messages.foldl
          ReceiveChannelUnreliable.process_message c.receive_unreliable_channel }
    | .ok (Packet.Ack _ _ _ _ acked_seq_id acked_mask _) =>
      some ((get_acked_packet_ids acked_seq_id acked_mask).foldl
        UnityClient.processAckedSequence c)

/-- The channel-priority loop of `UnityClient::get_packets_to_send`
(note: `from_channels` pushes both channels as
`ChannelOrder::Unreliable`, so the `Reliable` arm is present but
unreached from a `from_channels` client). -/
def channelOrderFold (c : UnityClient) :
    List ChannelOrder → Nat → List Packet → (List Packet × Nat × UnityClient)
  | [], avail, acc => (acc, avail, c)
  | order :: rest, avail, acc =>
    match order with
    | .Reliable _ =>
      let r := c.send_reliable_channel.get_packets_to_send avail c.current_time
      channelOrderFold { c with send_reliable_channel := r.2.2 } rest r.2.1
        (acc ++ r.1)
    | .Unreliable _ =>
      let r := c.send_unreliable_channel.get_packets_to_send avail
      channelOrderFold { c with send_unreliable_channel := r.2.2 } rest r.2.1
        (acc ++ r.1)

/-- The `sent_packets` registration loop of
`UnityClient::get_packets_to_send`. -/
def registerSentPacket (sent_at : Nat) (m : List (Nat × PacketSent))
    (p : Packet) : List (Nat × PacketSent) :=
  match p with
  | .SmallReliable channel_id _ _ sequence_id _ _ messages =>
    btInsert sequence_id
      ⟨sent_at, PacketSentInfo.ReliableMessages channel_id
        (messages.map Prod.fst)⟩ m
  | _ => m

/-- The serialization loop of `UnityClient::get_packets_to_send`
(accumulates the serialized packets and total bytes; the first
serialization failure aborts). -/
def serializeLoop : List Packet → List (List Nat) → Nat →
    Except SerializationError (List (List Nat) × Nat)
  | [], bufs, bytes_sent => .ok (bufs, bytes_sent)
  | p :: rest, bufs, bytes_sent =>
    match Packet.to_bytes TRANSPORT_MAX_PACKET_BYTES p with
    | .error err => .error err
    | .ok b => serializeLoop rest (bufs ++ [b]) (bytes_sent + b.length)

/-- `UnityClient::get_packets_to_send` (`wallNow` models the
`Instant::now()` read by `ack_process_start_instant.elapsed()`). -/
def UnityClient.get_packets_to_send (c : UnityClient) (wallNow : Nat) :
    List (List Nat) × UnityClient :=
  if c.is_disconnected then ([], c)
  else
    let r := channelOrderFold c c.channel_send_order
      c.available_bytes_per_tick []
    let c := r.2.2
    let packets :=
      if c.new_ack_to_send then
        match c.create_acked_bytes with
        | some (ack_seq_id, ack_mask) =>
          r.1 ++ [Packet.Ack 1 1 ((wallNow - c.ack_process_start_instant) % 65536)
            0 ack_seq_id ack_mask 0]
        | none => r.1
      else r.1
    let c := { c with
      sent_packets := packets.foldl (registerSentPacket c.current_time)
        c.sent_packets }
    match serializeLoop packets [] 0 with
    | .error err =>
      ([], c.disconnect_with_reason (DisconnectReason.PacketSerialization err))
    | .ok (serialized_packets, bytes_sent) =>
      (serialized_packets,
       { c with
          stats := c.stats.sent_packets serialized_packets.length bytes_sent })

/-! ## Transport-server wire codec
(`src/server/transport/server/packet.rs`; the helper readers of
`src/server/transport/server/serialize.rs` are not present under
`src/`) -/

/-- `TransportServerError` (`src/server/transport/server/error.rs`);
`IoError` carries no detail in the model. -/
inductive TransportServerError where
  | InvalidPacketType
  | InvalidPlayerId
  | InvalidSessionTicket
  | PacketTooSmall
  | PayloadAboveLimit
  | DuplicatedSequence
  | NoMoreServers
  | Expired
  | Disconnected (reason : DisconnectReason)
  | NotInHostList
  | ClientNotFound
  | ClientNotConnected
  | IoError
deriving DecidableEq, Repr

/-- Little-endian value of a byte list (least significant byte first). -/
def leVal : List Nat → Nat
  | [] => 0
  | b :: rest => b % 256 + 256 * leVal rest

/-- Little-endian byte image of `v` in `n` bytes (`to_le_bytes` of a
truncated value). -/
def leBytes : Nat → Nat → List Nat
  | 0, _ => []
  | n + 1, v => v % 256 :: leBytes n (v / 256)

/-- Modelled from the spec: `src/server/transport/server/serialize.rs`
(`read_u8/u16/u32/u64`, `read_bytes`) is missing from the sources; §6
fixes the integer fields of the transport frames as little-endian, and
`Packet::write` uses `to_le_bytes`.  Reads `n` little-endian bytes;
a short buffer is the `io::Error` of a failed exact read. -/
def readLeN (n : Nat) (l : List Nat) :
    Except TransportServerError (Nat × List Nat) :=
  if n ≤ l.length then .ok (leVal (l.take n), l.drop n)
  else .error .IoError

/-- Modelled from the spec: `read_bytes::<N>` of the missing
`serialize.rs`; reads `n` raw bytes. -/
def readBytesN (n : Nat) (l : List Nat) :
    Except TransportServerError (List Nat × List Nat) :=
  if n ≤ l.length then .ok (l.take n, l.drop n) else .error .IoError

/-- The five transport frames (`src/server/transport/server/packet.rs`).
Strings (player ids) are byte lists; `connection_pfx` is the 3-byte
`connection_prefix` field. -/
inductive TransportPacket where
  | ConnectionRequest (connection_pfx : List Nat) (connection_side_id : Nat)
      (client_identifier : Nat)
  | KeepAlive (client_identifier : Nat)
  | Data (client_identifier : Nat) (payload : List Nat)
  | Disconnect (client_identifier : Nat)
  | CreateSession (client_identifier : Nat) (session_id : Nat)
      (player_ids : List (List Nat))
deriving DecidableEq, Repr

/-- Unbounded byte image of `Packet::write` prefixed with the
`PacketType` discriminator byte (85/3/1/2/100). -/
def TransportPacket.encodeBytes : TransportPacket → List Nat
  | .ConnectionRequest connection_pfx connection_side_id client_identifier =>
    85 :: (connection_pfx ++ [connection_side_id % 256]
      ++ leBytes 8 client_identifier)
  | .KeepAlive client_identifier => 3 :: leBytes 8 client_identifier
  | .Data client_identifier payload =>
    1 :: (leBytes 8 client_identifier ++ payload)
  | .Disconnect client_identifier => 2 :: leBytes 8 client_identifier
  | .CreateSession client_identifier session_id player_ids =>
    100 :: (leBytes 8 client_identifier ++ leBytes 4 session_id
      ++ leBytes 2 player_ids.length ++ player_ids.flatten)

/-- `Packet::encode` into the server's 1400-byte `out` buffer; writing
past the buffer is the cursor's `io::Error`. -/
def TransportPacket.encode (p : TransportPacket) :
    Except TransportServerError (List Nat) :=
  let bytes := p.encodeBytes
  if bytes.length ≤ TRANSPORT_MAX_PACKET_BYTES then .ok bytes
  else .error .IoError

/-- Drop trailing zero bytes: `trim_end_matches(char::from(0))` on a
string, and the `rposition(|&b| b != 0)` trim of `CreateSession` player
ids. -/
def trimTrailingZeros (l : List Nat) : List Nat :=
  (l.reverse.dropWhile (fun b => b = 0)).reverse

/-- The player-id reading loop of the `CreateSession` arm of
`Packet::read`; a short read is hit by `.expect(...)`, a panic
(`none`). -/
def readPlayerIds (count : Nat) (l : List Nat) :
    Option (List (List Nat) × List Nat) :=
  match count with
  | 0 => some ([], l)
  | n + 1 =>
    match readBytesN 16 l with
    | .error _ => none
    | .ok (id, rest) =>
      match readPlayerIds n rest with
      | none => none
      | some (ids, rest) => some (trimTrailingZeros id :: ids, rest)

/-- `Packet::decode` (`src/server/transport/server/packet.rs`).  `none`
is a panic: `buffer[0]` on an empty buffer, or the `.expect` on a short
`CreateSession` player-id list.  (`from_utf8_lossy` is modelled as the
identity on the trimmed bytes: strings are byte lists.) -/
def TransportPacket.decode (buffer : List Nat) :
    Option (Except TransportServerError TransportPacket) :=
  match buffer with
  | [] => none
  | packet_type :: src =>
    match packet_type with
    | 1 =>
      some (do
        let (client_identifier, payload) ← readLeN 8 src
        .ok (TransportPacket.Data client_identifier payload))
    | 3 =>
      some (do
        let (client_identifier, _) ← readLeN 8 src
        .ok (TransportPacket.KeepAlive client_identifier))
    | 2 =>
      some (do
        let (client_identifier, _) ← readLeN 8 src
        .ok (TransportPacket.Disconnect client_identifier))
    | 85 =>
      some (do
        let (connection_pfx, rest) ← readBytesN 3 src
        let (connection_side_id, rest) ← readLeN 1 rest
        let (client_identifier, _) ← readLeN 8 rest
        .ok (TransportPacket.ConnectionRequest connection_pfx
          connection_side_id client_identifier))
    | 100 =>
      match readLeN 8 src with
      | .error e => some (.error e)
      | .ok (client_identifier, rest) =>
        match readLeN 4 rest with
        | .error e => some (.error e)
        | .ok (session_id, rest) =>
          match readLeN 2 rest with
          | .error e => some (.error e)
          | .ok (players_length, rest) =>
            match readPlayerIds players_length rest with
            | none => none
            | some (player_ids, _) =>
              some (.ok (TransportPacket.CreateSession client_identifier
                session_id player_ids))
    | _ => some (.error .InvalidPacketType)

/-! ## UTF-8 validity (`String::from_utf8` in the auth-preamble path) -/

/-- UTF-8 continuation byte (`0x80–0xBF`). -/
def isCont (b : Nat) : Bool := 128 ≤ b && b ≤ 191

/-- RFC 3629 well-formedness of a byte sequence: the success condition
of `String::from_utf8`. -/
def utf8Valid : List Nat → Bool
  | [] => true
  | b :: rest =>
    if b ≤ 127 then utf8Valid rest
    else if 194 ≤ b && b ≤ 223 then
      match rest with
      | c1 :: r => isCont c1 && utf8Valid r
      | [] => false
    else if b = 224 then
      match rest with
      | c1 :: c2 :: r => (160 ≤ c1 && c1 ≤ 191) && isCont c2 && utf8Valid r
      | _ => false
    else if 225 ≤ b && b ≤ 236 then
      match rest with
      | c1 :: c2 :: r => isCont c1 && isCont c2 && utf8Valid r
      | _ => false
    else if b = 237 then
      match rest with
      | c1 :: c2 :: r => (128 ≤ c1 && c1 ≤ 159) && isCont c2 && utf8Valid r
      | _ => false
    else if 238 ≤ b && b ≤ 239 then
      match rest with
      | c1 :: c2 :: r => isCont c1 && isCont c2 && utf8Valid r
      | _ => false
    else if b = 240 then
      match rest with
      | c1 :: c2 :: c3 :: r =>
        (144 ≤ c1 && c1 ≤ 191) && isCont c2 && isCont c3 && utf8Valid r
      | _ => false
    else if 241 ≤ b && b ≤ 243 then
      match rest with
      | c1 :: c2 :: c3 :: r => isCont c1 && isCont c2 && isCont c3 && utf8Valid r
      | _ => false
    else if b = 244 then
      match rest with
      | c1 :: c2 :: c3 :: r =>
        (128 ≤ c1 && c1 ≤ 143) && isCont c2 && isCont c3 && utf8Valid r
      | _ => false
    else false

/-! ## Transport server (`src/server/transport/server/server.rs`) -/

/-- `TRANSPORT_MAX_PENDING_CLIENTS` from `src/constants.rs`
(`TRANSPORT_MAX_CLIENTS * 4`). -/
def TRANSPORT_MAX_PENDING_CLIENTS : Nat := 4096

/-- `TRANSPORT_SEND_RATE` from `src/constants.rs` (250 ms). -/
def TRANSPORT_SEND_RATE : Nat := 250

/-- `ConnectionState` of the transport server. -/
inductive ConnectionState where
  | Disconnected
  | PendingResponse
  | Authenticating
  | Connected
deriving DecidableEq, Repr

/-- `Connection` of the transport server.  `is_authenticated` is the
current value of the `Arc<Mutex<(bool, String)>>` cell (the async auth
task is the only other writer; a spawn is modelled as leaving the cell
unchanged). -/
structure TSConnection where
  confirmed : Bool
  client_id : Nat
  state : ConnectionState
  is_authenticated : Bool × List Nat
  addr : Nat
  last_packet_received_time : Nat
  last_packet_send_time : Nat
  timeout_seconds : Int
  expire_timestamp : Nat
deriving DecidableEq, Repr

/-- `TransportServer` (the scratch `out` buffer is represented by the
returned byte lists; addresses are abstract `Nat`s; `Duration`s are
milliseconds). -/
structure TransportServer where
  clients : List (Option TSConnection)
  pending_clients : List (Nat × TSConnection)
  max_clients : Nat
  public_addresses : List Nat
  current_time : Nat
deriving DecidableEq, Repr

/-- `ServerResult`. -/
inductive ServerResult where
  | None
  | PacketToSend (addr : Nat) (payload : List Nat)
  | Payload (client_id : Nat) (payload : List Nat)
  | ClientConnected (client_id : Nat) (addr : Nat) (payload : List Nat)
      (player_id : List Nat)
  | ClientDisconnected (client_id : Nat) (addr : Nat)
      (payload : Option (List Nat))
  | CreateSession (id : Nat) (player_ids : List (List Nat))
deriving DecidableEq, Repr

/-- Slot scan returning the first occupied slot whose connection
satisfies `p`, with its index (shared body of the `find_client_*`
helpers). -/
def findSlotAux (p : TSConnection → Bool) :
    List (Option TSConnection) → Nat → Option (Nat × TSConnection)
  | [], _ => none
  | none :: rest, i => findSlotAux p rest (i + 1)
  | some c :: rest, i =>
    if p c then some (i, c) else findSlotAux p rest (i + 1)

/-- `find_client_mut_by_addr` (slot index and connection). -/
def find_client_mut_by_addr (clients : List (Option TSConnection))
    (addr : Nat) : Option (Nat × TSConnection) :=
  findSlotAux (fun c => decide (c.addr = addr)) clients 0

/-- `find_client_by_id` / `find_client_mut_by_id`. -/
def find_client_by_id (clients : List (Option TSConnection))
    (client_id : Nat) : Option (Nat × TSConnection) :=
  findSlotAux (fun c => decide (c.client_id = client_id)) clients 0

/-- `find_client_slot_by_id`. -/
def find_client_slot_by_id (clients : List (Option TSConnection))
    (client_id : Nat) : Option Nat :=
  (find_client_by_id clients client_id).map Prod.fst

/-- The first free slot (`clients.iter().position(|c| c.is_none())`). -/
def firstFreeSlot : List (Option TSConnection) → Option Nat
  | [] => none
  | none :: _ => some 0
  | some _ :: rest => (firstFreeSlot rest).map (· + 1)

/-- Count of occupied slots (`clients.iter().flatten().count()`). -/
def countConnected (clients : List (Option TSConnection)) : Nat :=
  (clients.filter Option.isSome).length

/-- `HashMap::insert` on an association list (replace or append). -/
def hmInsert {α : Type} (k : Nat) (v : α) : List (Nat × α) → List (Nat × α)
  | [] => [(k, v)]
  | (k', v') :: rest =>
    if k = k' then (k, v) :: rest else (k', v') :: hmInsert k v rest

/-- `TransportServer::handle_connection_request`
(`src/server/transport/server/server.rs`, lines 153–220).  The first
component is the server state after the call (mutations persist even
when the `Result` is an `Err`). -/
def TransportServer.handle_connection_request (s : TransportServer)
    (addr : Nat) (connection_pfx : List Nat) (client_identifier : Nat) :
    TransportServer × Except TransportServerError ServerResult :=
  let addr_already_connected := (find_client_mut_by_addr s.clients addr).isSome
  let id_already_connected :=
    (find_client_by_id s.clients client_identifier).isSome
  if id_already_connected || addr_already_connected then (s, .ok .None)
  else if !btContains addr s.pending_clients
      && s.pending_clients.length ≥ TRANSPORT_MAX_PENDING_CLIENTS then
    (s, .ok .None)
  else if countConnected s.clients ≥ s.max_clients then
    ({ s with pending_clients := btRemove addr s.pending_clients }, .ok .None)
  else
    match (TransportPacket.ConnectionRequest connection_pfx 2
        client_identifier).encode with
    | .error e => (s, .error e)
    | .ok bytes =>
      let pending0 := (btLookup addr s.pending_clients).getD
        { confirmed := false
          is_authenticated := (false, [])
          client_id := client_identifier
          last_packet_received_time := s.current_time
          last_packet_send_time := s.current_time
          addr := addr
          state := ConnectionState.PendingResponse
          timeout_seconds := 10
          expire_timestamp := s.current_time / 1000 + 10 }
      let pending := { pending0 with
        last_packet_received_time := s.current_time
        last_packet_send_time := s.current_time }
      ({ s with pending_clients := hmInsert addr pending s.pending_clients },
       .ok (.PacketToSend addr bytes))

/-- `TransportServer::generate_payload_packet`: on success, the target
address and the encoded `Data` datagram, with `last_packet_send_time`
recorded in the slot. -/
def TransportServer.generate_payload_packet (s : TransportServer)
    (client_identifier : Nat) (payload : List Nat) :
    TransportServer × Except TransportServerError (Nat × List Nat) :=
  match find_client_by_id s.clients client_identifier with
  | some (slot, client) =>
    match (TransportPacket.Data client_identifier payload).encode with
    | .error e => (s, .error e)
    | .ok bytes =>
      let client := { client with last_packet_send_time := s.current_time }
      ({ s with clients := s.clients.set slot (some client) },
       .ok (client.addr, bytes))
  | none => (s, .error .ClientNotFound)

/-- The `ConnectionState::Connected` match of `process_packet_internal`
(`last_packet_received_time` has already been written back to the
slot). -/
def processConnectedPacket (s : TransportServer) (addr slot : Nat)
    (client : TSConnection) (packet : TransportPacket) :
    TransportServer × Except TransportServerError ServerResult :=
  match packet with
  | .Disconnect _ =>
    ({ s with clients := s.clients.set slot none },
     .ok (.ClientDisconnected client.client_id addr none))
  | .Data _ payload =>
    let client := { client with confirmed := true }
    ({ s with clients := s.clients.set slot (some client) },
     .ok (.Payload client.client_id payload))
  | .KeepAlive _ =>
    let client := { client with confirmed := true }
    ({ s with clients := s.clients.set slot (some client) },
     .ok .None)
  | _ => (s, .ok .None)

/-- The `ConnectionState::PendingResponse` arm of the pending-`Data`
branch of `process_packet_internal` (lines 395–448): the entry has
already been removed from `pending_clients`, so every `Err` return
leaves it dropped.  The source reads `bytes[0]`, `bytes[1]` and
`bytes[5]` before any length check (panic, `none`, on a payload shorter
than 6 bytes), and `split_at(16)` on `bytes[6..]` panics for lengths
17–21; the spawn of the async authenticator leaves the
`is_authenticated` cell unchanged. -/
def processPendingResponseData (s : TransportServer) (addr : Nat)
    (pending : TSConnection) (client_identifier : Nat) (payload : List Nat) :
    Option (TransportServer × Except TransportServerError ServerResult) :=
  let pending := { pending with state := ConnectionState.Authenticating }
  let bytes := payload
  match bytes.get? 0, bytes.get? 1, bytes.get? 5 with
  | some channel_id, some messages_len, some message_type =>
    if bytes.length < 17 || channel_id ≠ 0 || messages_len ≠ 1
        || message_type ≠ 0 then
      some (s, .error .InvalidPacketType)
    else if bytes.length < 22 then none
    else
      let player_id_bytes := (bytes.drop 6).take 16
      let session_ticket_bytes := bytes.drop 22
      if !utf8Valid player_id_bytes then some (s, .error .InvalidPlayerId)
      else if !utf8Valid session_ticket_bytes then
        some (s, .error .InvalidSessionTicket)
      else
        let pending := { pending with
          last_packet_send_time := s.current_time }
        match (TransportPacket.KeepAlive client_identifier).encode with
        | .error e => some (s, .error e)
        | .ok out =>
          some
            ({ s with
                pending_clients := hmInsert addr pending s.pending_clients },
             .ok (.PacketToSend addr out))
  | _, _, _ => none

/-- The `ConnectionState::Authenticating` arm of the pending-`Data`
branch of `process_packet_internal` (lines 344–394): the entry has
already been removed from `pending_clients`. -/
def processAuthenticatingData (s : TransportServer) (addr : Nat)
    (pending : TSConnection) (client_identifier : Nat) :
    TransportServer × Except TransportServerError ServerResult :=
  if pending.is_authenticated.1 then
    if (find_client_slot_by_id s.clients client_identifier).isSome then
      (s, .ok .None)
    else
      match firstFreeSlot s.clients with
      | none =>
        match (TransportPacket.Disconnect client_identifier).encode with
        | .error e => (s, .error e)
        | .ok out => (s, .ok (.PacketToSend addr out))
      | some client_index =>
        let pending := { pending with
          state := ConnectionState.Connected
          last_packet_send_time := s.current_time }
        match (TransportPacket.KeepAlive client_identifier).encode with
        | .error e => (s, .error e)
        | .ok out =>
          ({ s with clients := s.clients.set client_index (some pending) },
           .ok (.ClientConnected pending.client_id addr out
             pending.is_authenticated.2))
  else
    ({ s with pending_clients := hmInsert addr pending s.pending_clients },
     .ok .None)

/-- `TransportServer::process_packet_internal`.  `none` is a panic
reached while processing the datagram (empty buffer, short auth
preamble, short `CreateSession` body); otherwise the server state after
the call and the `Result`. -/
def TransportServer.process_packet_internal (s : TransportServer)
    (addr : Nat) (buffer : List Nat) :
    Option (TransportServer × Except TransportServerError ServerResult) :=
  match find_client_mut_by_addr s.clients addr with
  | some (slot, client) =>
    match TransportPacket.decode buffer with
    | none => none
    | some (.error e) => some (s, .error e)
    | some (.ok packet) =>
      let client := { client with
        last_packet_received_time := s.current_time }
      let s := { s with clients := s.clients.set slot (some client) }
      match client.state with
      | ConnectionState.Connected =>
        some (processConnectedPacket s addr slot client packet)
      | _ => some (s, .ok .None)
  | none =>
    match btLookup addr s.pending_clients with
    | some pending =>
      match TransportPacket.decode buffer with
      | none => none
      | some (.error e) => some (s, .error e)
      | some (.ok packet) =>
        let pending := { pending with
          last_packet_received_time := s.current_time }
        let s := { s with
          pending_clients := hmInsert addr pending s.pending_clients }
        match packet with
        | .ConnectionRequest connection_pfx connection_side_id
            client_identifier =>
          if connection_side_id = 1 then
            some (s.handle_connection_request addr connection_pfx
              client_identifier)
          else some (s, .ok .None)
        | .Data client_identifier payload =>
          let s := { s with
            pending_clients := btRemove addr s.pending_clients }
          match pending.state with
          | ConnectionState.Authenticating =>
            some (processAuthenticatingData s addr pending client_identifier)
          | ConnectionState.PendingResponse =>
            processPendingResponseData s addr pending client_identifier
              payload
          | _ => some (s, .ok .None)
        | _ => some (s, .ok .None)
    | none =>
      match TransportPacket.decode buffer with
      | none => none
      | some (.error e) => some (s, .error e)
      | some (.ok packet) =>
        match packet with
        | .ConnectionRequest connection_pfx connection_side_id
            client_identifier =>
          if connection_side_id = 1 then
            some (s.handle_connection_request addr connection_pfx
              client_identifier)
          else some (s, .ok .None)
        | .CreateSession _ session_id player_ids =>
          some (s, .ok (.CreateSession session_id player_ids))
        | _ => some (s, .ok .None)

/-- `TransportServer::process_packet` (public wrapper): an `Err` from
`process_packet_internal` is logged and collapsed to
`ServerResult::None`. -/
def TransportServer.process_packet (s : TransportServer) (addr : Nat)
    (buffer : List Nat) : Option (TransportServer × ServerResult) :=
  match s.process_packet_internal addr buffer with
  | none => none
  | some (s, .error _) => some (s, .None)
  | some (s, .ok r) => some (s, r)

/-! ## Session dispatcher / socket fan-out
(`src/server/transport/transport.rs`) -/

/-- `ToDenariaServerMessage`. -/
inductive ToDenariaServerMessage where
  | ClientConnected (client_id : Nat) (addr : Nat) (payload : List Nat)
      (player_id : List Nat)
  | ClientDisconnected (client_id : Nat)
  | Payload (client_id : Nat) (payload : List Nat)
deriving DecidableEq, Repr

/-- `FromDenariaServerMessage`. -/
inductive FromDenariaServerMessage where
  | SendPacket (client_id : Nat) (packets : List (List Nat))
deriving DecidableEq, Repr

/-- Association-list lookup with byte-list keys
(`HashMap<String, _>::get`). -/
def alistLookup {κ α : Type} [DecidableEq κ] (k : κ) :
    List (κ × α) → Option α
  | [] => none
  | (k', v') :: rest => if k = k' then some v' else alistLookup k rest

/-- Association-list insert/replace with byte-list keys
(`HashMap<String, _>::insert`). -/
def alistInsert {κ α : Type} [DecidableEq κ] (k : κ) (v : α) :
    List (κ × α) → List (κ × α)
  | [] => [(k, v)]
  | (k', v') :: rest =>
    if k = k' then (k, v) :: rest else (k', v') :: alistInsert k v rest

/-- `NewSessionDetails`. -/
structure NewSessionDetails where
  id : Nat
  player_ids : List (List Nat)
deriving DecidableEq, Repr

/-- The `for packet in packets` loop of `ServerTransport::send_message`
(`src/server/transport/transport.rs`, lines 215–241).  Both match arms
end in `break`, so at most the first packet of the batch is ever
encoded and written to the socket; the returned list holds the
`(addr, datagram)` pairs actually passed to `socket.send_to`. -/
def sendPacketLoop (s : TransportServer) (client_id : Nat) :
    List (List Nat) → TransportServer × List (Nat × List Nat)
  | [] => (s, [])
  | packet :: _rest =>
    match s.generate_payload_packet client_id packet with
    | (s, .ok (addr, payload)) => (s, [(addr, payload)])
    | (s, .error _) => (s, [])

/-- `ServerTransport::send_message`. -/
def ServerTransport.send_message (s : TransportServer)
    (message : FromDenariaServerMessage) :
    TransportServer × List (Nat × List Nat) :=
  match message with
  | .SendPacket client_id packets => sendPacketLoop s client_id packets

/-- Output of `handle_server_result`: datagrams written to the socket,
messages sent to workers (sender handle, message), the updated
`client_id → sender` map, and the session to create, if any. -/
structure HandleResultOut where
  datagrams : List (Nat × List Nat)
  worker_msgs : List (Nat × ToDenariaServerMessage)
  client_id_to_server_tx_map : List (Nat × Nat)
  new_session : Option NewSessionDetails
deriving DecidableEq, Repr

/-- `handle_server_result` (`src/server/transport/transport.rs`, lines
249–329).  Channel senders are abstract handles (`Nat`). -/
def handle_server_result (server_result : ServerResult)
    (player_id_session_map : List (List Nat × Nat))
    (session_to_denaria_server_tx : List (Nat × Nat))
    (client_id_to_server_tx_map : List (Nat × Nat)) : HandleResultOut :=
  match server_result with
  | .None => ⟨[], [], client_id_to_server_tx_map, none⟩
  | .PacketToSend addr payload =>
    ⟨[(addr, payload)], [], client_id_to_server_tx_map, none⟩
  | .Payload client_id payload =>
    match btLookup client_id client_id_to_server_tx_map with
    | some sender =>
      ⟨[], [(sender, ToDenariaServerMessage.Payload client_id payload)],
        client_id_to_server_tx_map, none⟩
    | none => ⟨[], [], client_id_to_server_tx_map, none⟩
  | .ClientConnected client_id addr payload player_id =>
    match alistLookup player_id player_id_session_map with
    | some session_id =>
      match btLookup session_id session_to_denaria_server_tx with
      | some sender =>
        ⟨[(addr, payload)],
          [(sender, ToDenariaServerMessage.ClientConnected client_id addr
            payload player_id)],
          hmInsert client_id sender client_id_to_server_tx_map, none⟩
      | none => ⟨[(addr, payload)], [], client_id_to_server_tx_map, none⟩
    | none => ⟨[], [], client_id_to_server_tx_map, none⟩
  | .ClientDisconnected client_id _addr payload =>
    let msgs :=
      match btLookup client_id client_id_to_server_tx_map with
      | some sender =>
        [(sender, ToDenariaServerMessage.ClientDisconnected client_id)]
      | none => []
    let datagrams :=
      match payload with
      | some p => [(_addr, p)]
      | none => []
    ⟨datagrams, msgs, client_id_to_server_tx_map, none⟩
  | .CreateSession id player_ids =>
    ⟨[], [], client_id_to_server_tx_map, some ⟨id, player_ids⟩⟩

/-- `ServerTransport::create_session`: seeds `player_id_session_map`
with the roster, registers the fresh worker sender `tx` for the session
id, and spawns the worker thread (the spawn has no further state
effect here). -/
def ServerTransport.create_session
    (player_id_session_map : List (List Nat × Nat))
    (session_to_denaria_server_tx : List (Nat × Nat))
    (id : Nat) (player_ids : List (List Nat)) (tx : Nat) :
    List (List Nat × Nat) × List (Nat × Nat) :=
  (player_ids.foldl (fun m player_id => alistInsert player_id id m)
    player_id_session_map,
   hmInsert id tx session_to_denaria_server_tx)

/-! ## Claims -/

/-- C1: on a fresh connection (`pending_acks` empty) the ack-pending
update of a received reliable payload packet does NOT initialise the
set — `add_pending_ack` evaluates `pending_acks[0]` before any push, an
index-out-of-bounds access (modelled as `none`); processing a decoded
`SmallReliable` packet with sequence id 5 hits the same panic.  This
refutes the claim's safety property and confirms the spec's intended
semantics is not what the code does. -/
theorem claim_C1_empty_pending_acks_panics :
    (UnityClient.from_channels 0 60000
        ⟨0, 1000, SendType.Unreliable⟩ ⟨1, 1000, SendType.ReliableOrdered 200⟩
        ⟨0, 1000, SendType.Unreliable⟩
        ⟨1, 1000, SendType.ReliableOrdered 200⟩).map
      (fun c => (c.pending_acks, c.add_pending_ack 0 5,
        c.process_packet 0
          [1, 0, 0, 0, 0, 0, 5, 255, 255, 0, 0, 0, 0, 0, 1, 0, 1, 42]))
    = some ([], none, none) := rfl

/-- C3: a `Data` packet from a pending client in `PendingResponse`
whose payload is shorter than 6 bytes is an out-of-bounds access
(`bytes[5]` is read before the length check), modelled as `none` — the
claim's "never performs an out-of-bounds access on a short payload" is
false on the code.  A 17-byte payload with a wrong `channel_id` does
return `InvalidPacketType` with the pending entry dropped. -/
theorem claim_C3_short_auth_preamble_out_of_bounds :
    (TransportServer.process_packet_internal
      ⟨[none],
       [(9, ⟨false, 42, ConnectionState.PendingResponse, (false, []), 9, 0, 0,
          10, 10⟩)], 1, [], 0⟩
      9 ([1] ++ leBytes 8 42) = none)
    ∧ TransportServer.process_packet_internal
        ⟨[none],
         [(9, ⟨false, 42, ConnectionState.PendingResponse, (false, []), 9, 0, 0,
            10, 10⟩)], 1, [], 0⟩
        9 ([1] ++ leBytes 8 42 ++ [5, 1, 0, 0, 0, 0] ++ List.replicate 11 0)
      = some (⟨[none], [], 1, [], 0⟩,
          Except.error TransportServerError.InvalidPacketType) :=
  ⟨rfl, rfl⟩

/-- C4: a well-formed `CreateSession` datagram arriving from an
arbitrary address with no slot and no pending entry (hence never
authenticated) is accepted: `process_packet_internal` returns
`ServerResult::CreateSession`, `handle_server_result` turns it into a
`NewSessionDetails`, and `create_session` registers the roster and the
worker sender.  This refutes the claim that only a trusted
control-plane client can create a session. -/
theorem claim_C4_unauthenticated_create_session_accepted :
    TransportServer.process_packet_internal ⟨[none, none], [], 2, [], 0⟩ 77
        (100 :: (List.replicate 8 0 ++ [7, 0, 0, 0] ++ [1, 0]
          ++ ([112, 48, 49] ++ List.replicate 13 0)))
      = some (⟨[none, none], [], 2, [], 0⟩,
          Except.ok (ServerResult.CreateSession 7 [[112, 48, 49]]))
    ∧ (handle_server_result (ServerResult.CreateSession 7 [[112, 48, 49]])
        [] [] []).new_session = some ⟨7, [[112, 48, 49]]⟩
    ∧ ServerTransport.create_session [] [] 7 [[112, 48, 49]] 1
      = ([([112, 48, 49], 7)], [(7, 1)]) :=
  ⟨rfl, rfl, rfl⟩

/-- C5: a `FromWorker::SendPacket` batch of two packets for a connected
client produces exactly ONE datagram (the first packet's), because the
send loop `break`s after the first `send_to` — the claim's "one
datagram per packet in the batch" is false on the code. -/
theorem claim_C5_send_packet_batch_sends_only_first :
    ServerTransport.send_message
      ⟨[some ⟨true, 7, ConnectionState.Connected, (true, []), 42, 0, 0, 10,
        10⟩], [], 1, [], 0⟩
      (FromDenariaServerMessage.SendPacket 7 [[1, 2, 3], [4, 5, 6]])
    = (⟨[some ⟨true, 7, ConnectionState.Connected, (true, []), 42, 0, 0, 10,
        10⟩], [], 1, [], 0⟩,
       [(42, [1, 7, 0, 0, 0, 0, 0, 0, 0, 1, 2, 3])]) := rfl


/-! ## Lemmas about the ack mask (claim C2) -/

theorem sub16_one_sub16 (x k : Nat) (hk : k ≤ 65534) :
    sub16 (sub16 x 1) k = sub16 x (k + 1) := by
  unfold sub16
  have h1 : (1 : Nat) % 65536 = 1 := rfl
  have h2 : k % 65536 = k := Nat.mod_eq_of_lt (by omega)
  have h3 : (k + 1) % 65536 = k + 1 := Nat.mod_eq_of_lt (by omega)
  rw [h1, h2, h3]
  have h5 : (x + 65536 - 1) % 65536 + 65536 - k
      = (x + 65536 - 1) % 65536 + (65536 - k) := by omega
  rw [h5, Nat.mod_add_mod]
  have h4 : x + 65536 - 1 + (65536 - k) = x + 65536 - (k + 1) + 65536 := by
    omega
  rw [h4, Nat.add_mod_right]

theorem sub16Iter_eq :
    ∀ (k : Nat), k ≤ 65535 → ∀ x, x < 65536 → sub16Iter k x = sub16 x k := by
  intro k
  induction k with
  | zero =>
    intro _ x hx
    show x = sub16 x 0
    unfold sub16
    omega
  | succ k ih =>
    intro hk x hx
    have hlt : sub16 x 1 < 65536 := by unfold sub16; omega
    show sub16Iter k (sub16 x 1) = sub16 x (k + 1)
    rw [ih (by omega) (sub16 x 1) hlt, sub16_one_sub16 x k (by omega)]

theorem ackMaskGo_testBit (pending : List Nat) :
    ∀ (rem seq i mask j : Nat),
      Nat.testBit (ackMaskGo pending rem seq mask i) j =
        (Nat.testBit mask j ||
          (decide (i ≤ j ∧ j < i + rem) &&
            pending.contains (sub16Iter (j - i) seq))) := by
  intro rem
  induction rem with
  | zero =>
    intro seq i mask j
    have h : ¬(i ≤ j ∧ j < i + 0) := by omega
    simp [ackMaskGo, h]
  | succ rem ih =>
    intro seq i mask j
    show Nat.testBit (ackMaskGo pending rem (sub16 seq 1)
      (if pending.contains seq then mask ||| (1 <<< i) else mask)
      (i + 1)) j = _
    rw [ih]
    by_cases hij : j = i
    · subst hij
      have h1 : ¬(j + 1 ≤ j ∧ j < j + 1 + rem) := by omega
      have h2 : j ≤ j ∧ j < j + (rem + 1) := by omega
      have h3 : j - j = 0 := by omega
      rw [decide_eq_false h1, decide_eq_true h2, h3]
      simp only [Bool.false_and, Bool.or_false, Bool.true_and, sub16Iter]
      by_cases hc : pending.contains seq
      · rw [if_pos hc, Nat.testBit_lor, Nat.one_shiftLeft, Nat.testBit_two_pow]
        have hc2 : seq ∈ pending := by simpa using hc
        simp [hc2]
      · rw [if_neg hc]
        have hc2 : ¬ seq ∈ pending := by simpa using hc
        simp [hc2]
    · have hmask : Nat.testBit
          (if pending.contains seq then mask ||| (1 <<< i) else mask) j
          = Nat.testBit mask j := by
        by_cases hc : pending.contains seq
        · have hbit : (2 ^ i).testBit j = false := by
            rw [Nat.testBit_two_pow]
            simp
            omega
          rw [if_pos hc, Nat.testBit_lor, Nat.one_shiftLeft, hbit,
            Bool.or_false]
        · rw [if_neg hc]
      rw [hmask]
      by_cases hle : i + 1 ≤ j
      · have e1 : decide (i + 1 ≤ j ∧ j < i + 1 + rem)
            = decide (i ≤ j ∧ j < i + (rem + 1)) := by
          apply decide_eq_decide.mpr
          omega
        have e2 : j - i = j - (i + 1) + 1 := by omega
        have e3 : sub16Iter (j - i) seq = sub16Iter (j - (i + 1)) (sub16 seq 1) := by
          rw [e2]
          rfl
        rw [e1, e3]
      · have h1 : ¬(i + 1 ≤ j ∧ j < i + 1 + rem) := by omega
        have h2 : ¬(i ≤ j ∧ j < i + (rem + 1)) := by omega
        simp [h1, h2]

theorem sorted_le_getLast :
    ∀ (l : List Nat), l.Sorted (· < ·) → ∀ x ∈ l, ∀ m ∈ l.getLast?, x ≤ m := by
  intro l
  induction l with
  | nil => intro _ x hx; cases hx
  | cons a t ih =>
    intro hs x hx m hm
    match t with
    | [] =>
      cases hx with
      | head =>
        have hma : m = a := by
          rw [List.getLast?_singleton, Option.mem_def] at hm
          exact (Option.some.inj hm).symm
        omega
      | tail _ h => cases h
    | b :: t2 =>
      rw [List.getLast?_cons_cons] at hm
      cases hx with
      | head =>
        have hmem : m ∈ b :: t2 := List.mem_of_mem_getLast? hm
        have hlt : a < m := (List.sorted_cons.mp hs).1 m hmem
        omega
      | tail _ h =>
        exact ih (List.sorted_cons.mp hs).2 x h m hm

/-- C2 (counterexample): for pending acks {100, 102, 103} the encoder
does NOT produce mask `0b1101` = 13 (bit2 set, bit1 clear); the claim's
concrete mask value is wrong. -/
theorem claim_C2_counterexample_mask_value :
    createAckedBytes [100, 102, 103] ≠ some (103, 0b1101) := by decide

/-- C2 (amended): for every non-empty, strictly ascending `pending_acks`
of 16-bit values, `create_acked_bytes` yields anchor = the maximum
pending sequence id and a mask whose bit `i` (0 ≤ i < 32) is set iff
`anchor − i` (wrapping 16-bit subtraction) is pending; for pending acks
{100, 102, 103} it yields anchor = 103 and mask = 0b1011 (not 0b1101),
and decoding (103, 0b1011) yields exactly {100, 102, 103}. -/
theorem claim_C2_ack_mask_encoding :
    (∀ pending : List Nat, pending.Sorted (· < ·) → pending ≠ [] →
      (∀ x ∈ pending, x < 65536) →
      ∃ anchor mask, createAckedBytes pending = some (anchor, mask) ∧
        anchor ∈ pending ∧ (∀ x ∈ pending, x ≤ anchor) ∧
        (∀ i, i < 32 →
          Nat.testBit mask i = pending.contains (sub16 anchor i)))
    ∧ createAckedBytes [100, 102, 103] = some (103, 0b1011)
    ∧ get_acked_packet_ids 103 0b1011 = [103, 102, 100]
    ∧ (get_acked_packet_ids 103 0b1011).Perm [100, 102, 103] := by
  refine ⟨?_, by decide, by decide, by decide⟩
  intro pending hs hne hlt
  match hg : pending.getLast? with
  | none =>
    rw [List.getLast?_eq_none_iff] at hg
    exact absurd hg hne
  | some last =>
    refine ⟨last, ackMaskGo pending 32 last 0 0, ?_, ?_, ?_, ?_⟩
    · unfold createAckedBytes
      rw [hg]
    · exact List.mem_of_mem_getLast? hg
    · intro x hx
      exact sorted_le_getLast pending hs x hx last hg
    · intro i hi
      rw [ackMaskGo_testBit pending 32 last 0 0 i]
      have h2 : 0 ≤ i ∧ i < 0 + 32 := by omega
      have hlast : last < 65536 :=
        hlt last (List.mem_of_mem_getLast? hg)
      rw [Nat.zero_testBit, decide_eq_true h2, Nat.sub_zero,
        sub16Iter_eq i (by omega) last hlast]
      simp

/-- C2 (witness): the amended encoding law applied at the concrete
pending set {100, 102, 103}. -/
theorem claim_C2_ack_mask_encoding_witness :
    ∃ anchor mask, createAckedBytes [100, 102, 103] = some (anchor, mask) ∧
      anchor ∈ [100, 102, 103] ∧ (∀ x ∈ [100, 102, 103], x ≤ anchor) ∧
      (∀ i, i < 32 →
        Nat.testBit mask i = List.contains [100, 102, 103] (sub16 anchor i)) :=
  claim_C2_ack_mask_encoding.1 [100, 102, 103] (by decide) (by decide)
    (by decide)

/-! ## Claim C7: reliable receive ordering -/

/-- Scenario S3 driver: receive ids {0, 2, 3}, pull twice (delivery,
then gap stall), receive id 1, pull four more times. -/
def recvScenarioS3 : Except ChannelError (List (Option (List Nat))) := do
  let c := ReceiveChannelReliable.new 1000
  let c ← c.process_message [10] 0
  let c ← c.process_message [12] 2
  let c ← c.process_message [13] 3
  let r1 := c.receive_message
  let r2 := r1.2.receive_message
  let c ← r2.2.process_message [11] 1
  let r3 := c.receive_message
  let r4 := r3.2.receive_message
  let r5 := r4.2.receive_message
  let r6 := r5.2.receive_message
  .ok [r1.1, r2.1, r3.1, r4.1, r5.1, r6.1]

/-- C7: a reliable receive channel delivers in strictly increasing id
order from `oldest_pending_message_id` — a successful
`receive_message` returns exactly the buffered message at the cursor
and advances the cursor by one; a missing next id stalls delivery and
changes nothing; re-processing an id below the cursor or an
already-buffered id changes nothing (no second delivery); and the S3
scenario {0, 2, 3} then 1 delivers 0, stalls, then 1, 2, 3. -/
theorem claim_C7_reliable_receive_in_order :
    (∀ (c : ReceiveChannelReliable) (m : List Nat)
        (c2 : ReceiveChannelReliable),
      c.receive_message = (some m, c2) →
      btLookup c.oldest_pending_message_id c.messages = some m ∧
      c2.oldest_pending_message_id = c.oldest_pending_message_id + 1)
    ∧ (∀ c : ReceiveChannelReliable,
        btLookup c.oldest_pending_message_id c.messages = none →
        c.receive_message = (none, c))
    ∧ (∀ (c : ReceiveChannelReliable) (m : List Nat) (message_id : Nat),
        message_id < c.oldest_pending_message_id →
        c.process_message m message_id = .ok c)
    ∧ (∀ (c : ReceiveChannelReliable) (m : List Nat) (message_id : Nat),
        btContains message_id c.messages →
        c.process_message m message_id = .ok c)
    ∧ recvScenarioS3
        = .ok [some [10], none, some [11], some [12], some [13], none] := by
  refine ⟨?_, ?_, ?_, ?_, rfl⟩
  · intro c m c2 h
    unfold ReceiveChannelReliable.receive_message at h
    cases hl : btLookup c.oldest_pending_message_id c.messages with
    | none =>
      rw [hl] at h
      cases h
    | some msg =>
      rw [hl] at h
      rw [Prod.mk.injEq] at h
      obtain ⟨h1, h2⟩ := h
      injection h1 with h1
      subst h1
      exact ⟨rfl, by rw [← h2]⟩
  · intro c h
    unfold ReceiveChannelReliable.receive_message
    rw [h]
  · intro c m message_id h
    unfold ReceiveChannelReliable.process_message
    rw [if_pos h]
  · intro c m message_id h
    unfold ReceiveChannelReliable.process_message
    by_cases hlt : message_id < c.oldest_pending_message_id
    · rw [if_pos hlt]
    · rw [if_neg hlt, if_pos h]

/-- C7 (witness): the delivery law applied at a concrete channel whose
cursor is 0 and buffer holds id 0 with payload `[7]`; the hypothesis is
discharged by evaluation. -/
theorem claim_C7_reliable_receive_in_order_witness :
    btLookup (0 : Nat) [(0, ([7] : List Nat))] = some [7] ∧
      (1 : Nat) = 0 + 1 :=
  claim_C7_reliable_receive_in_order.1 ⟨[(0, [7])], 0, 1, 10⟩ [7]
    ⟨[], 1, 0, 10⟩ (by rfl)

/-! ## Claim C6: reliable send-channel memory invariant -/

/-- Key/payload view of the unacked map (forgets `last_sent`). -/
def entriesShape (l : List (Nat × UnackedMessage)) : List (Nat × List Nat) :=
  l.map (fun e => (e.1, e.2.message))

/-- Total payload bytes of the unacked map. -/
def sumLens (l : List (Nat × UnackedMessage)) : Nat :=
  (l.map (fun e => e.2.message.length)).sum

/-- One public operation on a reliable send channel. -/
inductive RelSendOp where
  | send (message : List Nat)
  | ack (message_id : Nat)
  | tick (available_bytes now : Nat)
deriving DecidableEq, Repr

/-- State after one operation (a rejected `send_message` leaves the
channel unchanged, as in the source). -/
def RelSendOp.apply (c : SendChannelReliable) : RelSendOp → SendChannelReliable
  | .send message =>
    match c.send_message message with
    | .ok c2 => c2
    | .error _ => c
  | .ack message_id => c.process_message_ack message_id
  | .tick available_bytes now =>
    (c.get_packets_to_send available_bytes now).2.2

/-- State after a sequence of operations. -/
def runRelSendOps (c : SendChannelReliable) (ops : List RelSendOp) :
    SendChannelReliable :=
  ops.foldl RelSendOp.apply c

theorem gptsStep_entries (cid rt now : Nat) (st : GptsState)
    (e : Nat × UnackedMessage) :
    ∃ um, (gptsStep cid rt now st e).entries = st.entries ++ [(e.1, um)] ∧
      um.message = e.2.message := by
  unfold gptsStep
  by_cases h : shouldEmit rt now st.avail e.2
  · rw [if_pos h]
    refine ⟨⟨e.2.message, some now⟩, ?_, rfl⟩
    by_cases h2 : st.smallBytes
        + (e.2.message.length + varint_len e.2.message.length
          + varint_len e.1) > MAX_MESSAGES_LENGTH
    · show ((if st.smallBytes + _ > MAX_MESSAGES_LENGTH then _ else st :
        GptsState)).entries ++ _ = _
      rw [if_pos h2]
    · show ((if st.smallBytes + _ > MAX_MESSAGES_LENGTH then _ else st :
        GptsState)).entries ++ _ = _
      rw [if_neg h2]
  · rw [if_neg h]
    exact ⟨e.2, rfl, rfl⟩

theorem gptsFold_entriesShape (cid rt now : Nat) :
    ∀ (l : List (Nat × UnackedMessage)) (st : GptsState),
      entriesShape ((l.foldl (gptsStep cid rt now) st).entries)
        = entriesShape st.entries ++ entriesShape l := by
  intro l
  induction l with
  | nil => intro st; simp [entriesShape]
  | cons e rest ih =>
    intro st
    rw [List.foldl_cons, ih]
    obtain ⟨um, he, hm⟩ := gptsStep_entries cid rt now st e
    rw [he]
    unfold entriesShape
    simp [hm]

theorem gpts_channel_frame (c : SendChannelReliable) (avail now : Nat) :
    entriesShape ((c.get_packets_to_send avail now).2.2.unacked_messages)
      = entriesShape c.unacked_messages
    ∧ (c.get_packets_to_send avail now).2.2.memory_usage_bytes
      = c.memory_usage_bytes
    ∧ (c.get_packets_to_send avail now).2.2.max_memory_usage_bytes
      = c.max_memory_usage_bytes
    ∧ (c.get_packets_to_send avail now).2.2.next_message_id
      = c.next_message_id
    ∧ (c.get_packets_to_send avail now).2.2.resend_time = c.resend_time := by
  unfold SendChannelReliable.get_packets_to_send
  by_cases h : c.unacked_messages.isEmpty
  · rw [if_pos h]
    exact ⟨rfl, rfl, rfl, rfl, rfl⟩
  · rw [if_neg h]
    refine ⟨?_, rfl, rfl, rfl, rfl⟩
    have hshape := gptsFold_entriesShape c.channel_id c.resend_time now
      c.unacked_messages
      ⟨avail, [], [], 0, c.next_package_sequence_id, []⟩
    simpa [entriesShape] using hshape

theorem btInsert_append {α : Type} (k : Nat) (v : α) :
    ∀ (l : List (Nat × α)), (∀ e ∈ l, e.1 < k) →
      btInsert k v l = l ++ [(k, v)] := by
  intro l
  induction l with
  | nil => intro _; rfl
  | cons e rest ih =>
    intro h
    obtain ⟨k2, v2⟩ := e
    have h1 : k2 < k := h (k2, v2) (List.mem_cons_self _ _)
    unfold btInsert
    rw [if_neg (by omega), if_neg (by omega),
      ih (fun x hx => h x (List.mem_cons_of_mem _ hx))]
    rfl

theorem sumLens_append (a b : List (Nat × UnackedMessage)) :
    sumLens (a ++ b) = sumLens a + sumLens b := by
  simp [sumLens]

theorem sumLens_of_entriesShape (l1 l2 : List (Nat × UnackedMessage))
    (h : entriesShape l1 = entriesShape l2) : sumLens l1 = sumLens l2 := by
  have key : ∀ l : List (Nat × UnackedMessage),
      sumLens l = ((entriesShape l).map (fun e => e.2.length)).sum := by
    intro l
    simp [sumLens, entriesShape, List.map_map]
    rfl
  rw [key l1, key l2, h]

theorem keys_of_entriesShape (l1 l2 : List (Nat × UnackedMessage))
    (h : entriesShape l1 = entriesShape l2) :
    l1.map Prod.fst = l2.map Prod.fst := by
  have key : ∀ l : List (Nat × UnackedMessage),
      l.map Prod.fst = (entriesShape l).map Prod.fst := by
    intro l
    simp [entriesShape, List.map_map]
  rw [key l1, key l2, h]

theorem sumLens_btRemove (message_id : Nat) :
    ∀ (l : List (Nat × UnackedMessage)) (um : UnackedMessage),
      btLookup message_id l = some um →
      sumLens (btRemove message_id l) + um.message.length = sumLens l := by
  intro l
  induction l with
  | nil => intro um h; cases h
  | cons e rest ih =>
    intro um h
    obtain ⟨k2, v2⟩ := e
    unfold btLookup at h
    unfold btRemove
    by_cases hk : message_id = k2
    · rw [if_pos hk] at h
      injection h with h
      subst h
      rw [if_pos hk]
      simp [sumLens]
      omega
    · rw [if_neg hk] at h
      rw [if_neg hk]
      have hrec := ih um h
      simp [sumLens] at hrec ⊢
      omega

theorem btRemove_subset {α : Type} (k : Nat) :
    ∀ (l : List (Nat × α)) (e : Nat × α), e ∈ btRemove k l → e ∈ l := by
  intro l
  induction l with
  | nil => intro e h; cases h
  | cons e2 rest ih =>
    intro e h
    obtain ⟨k2, v2⟩ := e2
    unfold btRemove at h
    by_cases hk : k = k2
    · rw [if_pos hk] at h
      exact List.mem_cons_of_mem _ h
    · rw [if_neg hk] at h
      cases h with
      | head => exact List.mem_cons_self _ _
      | tail _ h2 => exact List.mem_cons_of_mem _ (ih e h2)

/-- The C6 invariant: `memory_usage_bytes` is exactly the sum of the
unacked payload lengths, bounded by the cap, with all keys below the
next fresh message id. -/
def RelSendInv (c : SendChannelReliable) : Prop :=
  c.memory_usage_bytes = sumLens c.unacked_messages ∧
  c.memory_usage_bytes ≤ c.max_memory_usage_bytes ∧
  ∀ e ∈ c.unacked_messages, e.1 < c.next_message_id

theorem relSendInv_apply (c : SendChannelReliable) (op : RelSendOp)
    (h : RelSendInv c) :
    RelSendInv (RelSendOp.apply c op) ∧
      (RelSendOp.apply c op).max_memory_usage_bytes
        = c.max_memory_usage_bytes := by
  obtain ⟨hsum, hle, hkeys⟩ := h
  match op with
  | .send message =>
    by_cases hg : c.memory_usage_bytes + message.length
        > c.max_memory_usage_bytes
    · have happ : RelSendOp.apply c (.send message) = c := by
        show (match c.send_message message with
          | .ok c2 => c2 | .error _ => c) = c
        unfold SendChannelReliable.send_message
        rw [if_pos hg]
      rw [happ]
      exact ⟨⟨hsum, hle, hkeys⟩, rfl⟩
    · have happ : RelSendOp.apply c (.send message)
          = { c with
              memory_usage_bytes := c.memory_usage_bytes + message.length
              unacked_messages := btInsert c.next_message_id ⟨message, none⟩
                c.unacked_messages
              next_message_id := c.next_message_id + 1 } := by
        show (match c.send_message message with
          | .ok c2 => c2 | .error _ => c) = _
        unfold SendChannelReliable.send_message
        rw [if_neg hg]
      rw [happ]
      refine ⟨⟨?_, by simp; omega, ?_⟩, rfl⟩
      · show c.memory_usage_bytes + message.length
          = sumLens (btInsert c.next_message_id ⟨message, none⟩
            c.unacked_messages)
        rw [btInsert_append c.next_message_id ⟨message, none⟩
          c.unacked_messages hkeys, sumLens_append, hsum]
        simp [sumLens]
      · intro e he
        show e.1 < c.next_message_id + 1
        simp only [btInsert_append c.next_message_id ⟨message, none⟩
          c.unacked_messages hkeys] at he
        rcases List.mem_append.mp he with h1 | h2
        · have := hkeys e h1
          omega
        · have he2 : e = (c.next_message_id, ⟨message, none⟩) :=
            List.mem_singleton.mp h2
          rw [he2]
          omega
  | .ack message_id =>
    match hl : btLookup message_id c.unacked_messages with
    | none =>
      have happ : RelSendOp.apply c (.ack message_id) = c := by
        show c.process_message_ack message_id = c
        unfold SendChannelReliable.process_message_ack
        rw [hl]
      rw [happ]
      exact ⟨⟨hsum, hle, hkeys⟩, rfl⟩
    | some um =>
      have happ : RelSendOp.apply c (.ack message_id)
          = { c with
              unacked_messages := btRemove message_id c.unacked_messages
              memory_usage_bytes :=
                c.memory_usage_bytes - um.message.length } := by
        show c.process_message_ack message_id = _
        unfold SendChannelReliable.process_message_ack
        rw [hl]
      rw [happ]
      have hrem := sumLens_btRemove message_id c.unacked_messages um hl
      refine ⟨⟨?_, by simp; omega, ?_⟩, rfl⟩
      · show c.memory_usage_bytes - um.message.length
          = sumLens (btRemove message_id c.unacked_messages)
        omega
      · intro e he
        exact hkeys e (btRemove_subset message_id c.unacked_messages e he)
  | .tick available_bytes now =>
    have happ : RelSendOp.apply c (.tick available_bytes now)
        = (c.get_packets_to_send available_bytes now).2.2 := rfl
    rw [happ]
    obtain ⟨hshape, hmem, hmax, hnext, _⟩ :=
      gpts_channel_frame c available_bytes now
    refine ⟨⟨?_, ?_, ?_⟩, hmax⟩
    · rw [hmem, hsum,
        sumLens_of_entriesShape _ c.unacked_messages hshape]
    · rw [hmem, hmax]
      exact hle
    · intro e he
      have hk := keys_of_entriesShape _ c.unacked_messages hshape
      have he1 : e.1 ∈ ((c.get_packets_to_send available_bytes
          now).2.2.unacked_messages).map Prod.fst :=
        List.mem_map_of_mem Prod.fst he
      rw [hk] at he1
      obtain ⟨e2, he2, hee⟩ := List.mem_map.mp he1
      rw [hnext, ← hee]
      exact hkeys e2 he2

theorem relSendInv_run (ops : List RelSendOp) :
    ∀ (c : SendChannelReliable), RelSendInv c →
      RelSendInv (runRelSendOps c ops) ∧
        (runRelSendOps c ops).max_memory_usage_bytes
          = c.max_memory_usage_bytes := by
  induction ops with
  | nil => intro c h; exact ⟨h, rfl⟩
  | cons op rest ih =>
    intro c h
    obtain ⟨h1, h2⟩ := relSendInv_apply c op h
    obtain ⟨h3, h4⟩ := ih (RelSendOp.apply c op) h1
    exact ⟨h3, by rw [show runRelSendOps c (op :: rest)
      = runRelSendOps (RelSendOp.apply c op) rest from rfl, h4, h2]⟩

/-- C6: from a fresh reliable send channel, after any sequence of
`send_message` / `process_message_ack` / `get_packets_to_send`
operations, `memory_usage_bytes` equals the total unacked payload bytes
and never exceeds `max_memory_usage_bytes`; `get_packets_to_send`
neither adds nor removes entries (it only stamps `last_sent`), a
successful `send_message` appends exactly one fresh entry and accounts
its bytes, and `process_message_ack` removes exactly the acked entry
(nothing when the id is unknown). -/
theorem claim_C6_send_channel_memory_invariant :
    (∀ (channel_id resend_time max_memory : Nat) (ops : List RelSendOp),
      (runRelSendOps (SendChannelReliable.new channel_id resend_time
          max_memory) ops).memory_usage_bytes
        = sumLens (runRelSendOps (SendChannelReliable.new channel_id
            resend_time max_memory) ops).unacked_messages ∧
      (runRelSendOps (SendChannelReliable.new channel_id resend_time
          max_memory) ops).memory_usage_bytes ≤ max_memory)
    ∧ (∀ (c : SendChannelReliable) (avail now : Nat),
        entriesShape ((c.get_packets_to_send avail now).2.2.unacked_messages)
          = entriesShape c.unacked_messages ∧
        (c.get_packets_to_send avail now).2.2.memory_usage_bytes
          = c.memory_usage_bytes)
    ∧ (∀ (c : SendChannelReliable) (message : List Nat)
        (c2 : SendChannelReliable), c.send_message message = .ok c2 →
        c2.unacked_messages
          = btInsert c.next_message_id ⟨message, none⟩ c.unacked_messages ∧
        c2.memory_usage_bytes = c.memory_usage_bytes + message.length ∧
        c2.next_message_id = c.next_message_id + 1)
    ∧ (∀ (c : SendChannelReliable) (message_id : Nat),
        (c.process_message_ack message_id).unacked_messages
          = match btLookup message_id c.unacked_messages with
            | none => c.unacked_messages
            | some _ => btRemove message_id c.unacked_messages) := by
  refine ⟨?_, ?_, ?_, ?_⟩
  · intro channel_id resend_time max_memory ops
    have hnew : RelSendInv (SendChannelReliable.new channel_id resend_time
        max_memory) := by
      refine ⟨rfl, by simp [SendChannelReliable.new], ?_⟩
      intro e he
      cases he
    obtain ⟨⟨h1, h2, _⟩, h4⟩ := relSendInv_run ops _ hnew
    have h5 : (SendChannelReliable.new channel_id resend_time
        max_memory).max_memory_usage_bytes = max_memory := rfl
    rw [h4, h5] at h2
    exact ⟨h1, h2⟩
  · intro c avail now
    obtain ⟨hshape, hmem, _, _, _⟩ := gpts_channel_frame c avail now
    exact ⟨hshape, hmem⟩
  · intro c message c2 h
    unfold SendChannelReliable.send_message at h
    by_cases hg : c.memory_usage_bytes + message.length
        > c.max_memory_usage_bytes
    · rw [if_pos hg] at h
      cases h
    · rw [if_neg hg] at h
      injection h with h
      rw [← h]
      exact ⟨rfl, rfl, rfl⟩
  · intro c message_id
    unfold SendChannelReliable.process_message_ack
    match hl : btLookup message_id c.unacked_messages with
    | none => rfl
    | some um => rfl

/-- C6 (witness): the invariant applied after a concrete operation
sequence (send a 3-byte message, tick, ack it), and the send law at a
fresh channel with the `Ok` hypothesis discharged by evaluation. -/
theorem claim_C6_send_channel_memory_invariant_witness :
    ((runRelSendOps (SendChannelReliable.new 1 200 10)
        [RelSendOp.send [5, 6, 7], RelSendOp.tick 100 0,
         RelSendOp.ack 0]).memory_usage_bytes
      = sumLens (runRelSendOps (SendChannelReliable.new 1 200 10)
          [RelSendOp.send [5, 6, 7], RelSendOp.tick 100 0,
           RelSendOp.ack 0]).unacked_messages ∧
     (runRelSendOps (SendChannelReliable.new 1 200 10)
        [RelSendOp.send [5, 6, 7], RelSendOp.tick 100 0,
         RelSendOp.ack 0]).memory_usage_bytes ≤ 10) ∧
    ((SendChannelReliable.new 1 200 10).send_message [5, 6, 7]
        = .ok ⟨1, [(0, ⟨[5, 6, 7], none⟩)], 0, 1, 200, 10, 3⟩ →
          (⟨1, [(0, ⟨[5, 6, 7], none⟩)], 0, 1, 200, 10, 3⟩ :
              SendChannelReliable).unacked_messages
            = btInsert 0 ⟨[5, 6, 7], none⟩ [] ∧
          (3 : Nat) = 0 + 3 ∧ (1 : Nat) = 0 + 1) :=
  ⟨claim_C6_send_channel_memory_invariant.1 1 200 10
    [RelSendOp.send [5, 6, 7], RelSendOp.tick 100 0, RelSendOp.ack 0],
   fun h => claim_C6_send_channel_memory_invariant.2.2.1
    (SendChannelReliable.new 1 200 10) [5, 6, 7] _ h⟩

/-! ## Claim C8: retransmission gating -/

/-- Message ids carried by the reliable packets of one emission. -/
def emittedIds (packets : List Packet) : List Nat :=
  (packets.map (fun p => p.relMessages.map Prod.fst)).flatten

/-- Ids of the `packets`/`small_messages` accumulator. -/
def stEmitted (st : GptsState) : List Nat :=
  emittedIds st.packets ++ st.small.map Prod.fst

/-- Specification fold: the ids the `get_packets_to_send` loop decides
to emit, tracking the byte budget. -/
def scanEmit (resend_time now : Nat) :
    List (Nat × UnackedMessage) → Nat → List Nat
  | [] => fun _ => []
  | e :: rest => fun avail =>
    if shouldEmit resend_time now avail e.2 then
      e.1 :: scanEmit resend_time now rest (avail - e.2.message.length)
    else scanEmit resend_time now rest avail

theorem scanEmit_nil (resend_time now avail : Nat) :
    scanEmit resend_time now [] avail = [] := rfl

theorem scanEmit_cons (resend_time now avail : Nat)
    (e : Nat × UnackedMessage) (rest : List (Nat × UnackedMessage)) :
    scanEmit resend_time now (e :: rest) avail
      = if shouldEmit resend_time now avail e.2 then
          e.1 :: scanEmit resend_time now rest (avail - e.2.message.length)
        else scanEmit resend_time now rest avail := rfl

theorem gptsStep_emitted (cid rt now : Nat) (st : GptsState)
    (e : Nat × UnackedMessage) :
    stEmitted (gptsStep cid rt now st e)
      = stEmitted st ++
        (if shouldEmit rt now st.avail e.2 then [e.1] else []) ∧
    (gptsStep cid rt now st e).avail
      = (if shouldEmit rt now st.avail e.2 then
          st.avail - e.2.message.length else st.avail) := by
  unfold gptsStep
  by_cases h : shouldEmit rt now st.avail e.2
  · rw [if_pos h, if_pos h, if_pos h]
    constructor
    · by_cases h2 : st.smallBytes
          + (e.2.message.length + varint_len e.2.message.length
            + varint_len e.1) > MAX_MESSAGES_LENGTH
      · show stEmitted ({(if st.smallBytes + _ > MAX_MESSAGES_LENGTH
            then _ else st : GptsState) with
            avail := _, smallBytes := _, small := _, entries := _}) = _
        rw [if_pos h2]
        simp [stEmitted, emittedIds, Packet.relMessages]
      · show stEmitted ({(if st.smallBytes + _ > MAX_MESSAGES_LENGTH
            then _ else st : GptsState) with
            avail := _, smallBytes := _, small := _, entries := _}) = _
        rw [if_neg h2]
        simp [stEmitted, emittedIds]
    · show ({(if st.smallBytes + _ > MAX_MESSAGES_LENGTH
          then _ else st : GptsState) with
          avail := st.avail - e.2.message.length, smallBytes := _,
          small := _, entries := _}).avail = _
      split <;> rfl
  · rw [if_neg h, if_neg h, if_neg h]
    exact ⟨by simp [stEmitted], rfl⟩

theorem gptsFold_emitted (cid rt now : Nat) :
    ∀ (l : List (Nat × UnackedMessage)) (st : GptsState),
      stEmitted (l.foldl (gptsStep cid rt now) st)
        = stEmitted st ++ scanEmit rt now l st.avail := by
  intro l
  induction l with
  | nil => intro st; simp [scanEmit_nil]
  | cons e rest ih =>
    intro st
    rw [List.foldl_cons, ih]
    obtain ⟨hem, hav⟩ := gptsStep_emitted cid rt now st e
    rw [hem, hav, scanEmit_cons]
    by_cases h : shouldEmit rt now st.avail e.2
    · rw [if_pos h, if_pos h, if_pos h, List.append_assoc]
      rfl
    · rw [if_neg h, if_neg h, if_neg h]
      simp

theorem gpts_emittedIds (c : SendChannelReliable) (avail now : Nat) :
    emittedIds (c.get_packets_to_send avail now).1
      = scanEmit c.resend_time now c.unacked_messages avail := by
  unfold SendChannelReliable.get_packets_to_send
  by_cases h : c.unacked_messages.isEmpty
  · rw [if_pos h]
    rw [List.isEmpty_iff] at h
    rw [h]
    rfl
  · rw [if_neg h]
    have hfold := gptsFold_emitted c.channel_id c.resend_time now
      c.unacked_messages
      ⟨avail, [], [], 0, c.next_package_sequence_id, []⟩
    dsimp only
    by_cases h2 : (c.unacked_messages.foldl
        (gptsStep c.channel_id c.resend_time now)
        ⟨avail, [], [], 0, c.next_package_sequence_id, []⟩).small.isEmpty
    · rw [if_pos h2]
      rw [List.isEmpty_iff] at h2
      have := hfold
      rw [stEmitted, h2] at this
      simpa [stEmitted, emittedIds] using this
    · rw [if_neg h2]
      have := hfold
      rw [stEmitted] at this
      rw [emittedIds, List.map_append, List.flatten_append, ← emittedIds]
      simpa [emittedIds, Packet.relMessages, stEmitted] using this

theorem scanEmit_subset (rt now : Nat) :
    ∀ (l : List (Nat × UnackedMessage)) (avail x : Nat),
      x ∈ scanEmit rt now l avail → x ∈ l.map Prod.fst := by
  intro l
  induction l with
  | nil => intro avail x h; cases h
  | cons e rest ih =>
    intro avail x h
    unfold scanEmit at h
    by_cases he : shouldEmit rt now avail e.2
    · rw [if_pos he] at h
      cases h with
      | head => exact List.mem_cons_self _ _
      | tail _ h2 => exact List.mem_cons_of_mem _ (ih _ x h2)
    · rw [if_neg he] at h
      exact List.mem_cons_of_mem _ (ih _ x h)

theorem shouldEmit_false_of_recent (rt now avail : Nat) (msg : List Nat)
    (ls : Nat) (h : now - ls < rt) :
    shouldEmit rt now avail ⟨msg, some ls⟩ = false := by
  unfold shouldEmit
  by_cases h2 : avail < msg.length
  · rw [if_pos h2]
  · rw [if_neg h2]
    simp [h]

theorem shouldEmit_true_of_due (rt now avail : Nat) (um : UnackedMessage)
    (hlen : um.message.length ≤ avail)
    (hdue : um.last_sent = none ∨
      ∃ ls, um.last_sent = some ls ∧ rt ≤ now - ls) :
    shouldEmit rt now avail um = true := by
  unfold shouldEmit
  rw [if_neg (by omega)]
  rcases hdue with h | ⟨ls, h1, h2⟩
  · rw [h]
  · rw [h1]
    simp
    omega

theorem scanEmit_not_mem_of_recent (rt now : Nat) :
    ∀ (l : List (Nat × UnackedMessage)) (avail id : Nat) (msg : List Nat)
      (ls : Nat),
      (id, ⟨msg, some ls⟩) ∈ l → now - ls < rt →
      (l.map Prod.fst).Nodup → id ∉ scanEmit rt now l avail := by
  intro l
  induction l with
  | nil => intro avail id msg ls hmem; cases hmem
  | cons e rest ih =>
    intro avail id msg ls hmem hrec hnodup
    have hnodup2 := hnodup
    rw [List.map_cons, List.nodup_cons] at hnodup2
    obtain ⟨hhead, htail⟩ := hnodup2
    cases hmem with
    | head =>
      rw [scanEmit_cons,
        shouldEmit_false_of_recent rt now avail msg ls hrec,
        if_neg (by simp)]
      intro hc
      exact hhead (scanEmit_subset rt now rest avail id hc)
    | tail _ h2 =>
      have hid : id ∈ rest.map Prod.fst :=
        List.mem_map_of_mem Prod.fst h2
      rw [scanEmit_cons]
      by_cases he : shouldEmit rt now avail e.2
      · rw [if_pos he]
        intro hc
        cases hc with
        | head => exact hhead hid
        | tail _ hc2 => exact ih _ id msg ls h2 hrec htail hc2
      · rw [if_neg he]
        exact ih _ id msg ls h2 hrec htail
    
theorem scanEmit_mem_of_due (rt now : Nat) :
    ∀ (l : List (Nat × UnackedMessage)) (avail id : Nat)
      (um : UnackedMessage),
      (id, um) ∈ l → sumLens l ≤ avail →
      (um.last_sent = none ∨
        ∃ ls, um.last_sent = some ls ∧ rt ≤ now - ls) →
      id ∈ scanEmit rt now l avail := by
  intro l
  induction l with
  | nil => intro avail id um hmem; cases hmem
  | cons e rest ih =>
    intro avail id um hmem hsum hdue
    cases hmem with
    | head =>
      have hsum2 : sumLens ((id, um) :: rest)
          = um.message.length + sumLens rest := by
        simp [sumLens]
      rw [scanEmit_cons,
        shouldEmit_true_of_due rt now avail um (by omega) hdue,
        if_pos rfl]
      exact List.mem_cons_self _ _
    | tail _ h2 =>
      have hsum2 : sumLens (e :: rest)
          = e.2.message.length + sumLens rest := by
        simp [sumLens]
      rw [scanEmit_cons]
      by_cases he : shouldEmit rt now avail e.2
      · rw [if_pos he]
        exact List.mem_cons_of_mem _
          (ih (avail - e.2.message.length) id um h2 (by omega) hdue)
      · rw [if_neg he]
        exact ih avail id um h2 (by omega) hdue

/-- Scenario S2 channel: one 100-byte message (id 0) enqueued, not yet
sent. -/
def s2Channel : SendChannelReliable :=
  ⟨1, [(0, ⟨List.replicate 100 7, none⟩)], 0, 1, 200, 10000, 100⟩

/-- C8: an unacked reliable message whose `last_sent` is within
`resend_time` of `now` is never re-emitted by `get_packets_to_send`; an
unacked message that is due (never sent, or `resend_time` elapsed) is
emitted whenever the budget covers the whole queue; a processed ack
removes the entry and releases exactly its payload bytes; and scenario
S2: a 100-byte message sent at t=0 with `resend_time` 200 ms is not
re-sent at t=100 ms, is re-sent at t=201 ms, and its ack drops memory
from 100 to 0. -/
theorem claim_C8_resend_time_gating :
    (∀ (c : SendChannelReliable) (avail now message_id : Nat)
        (msg : List Nat) (ls : Nat),
      (message_id, ⟨msg, some ls⟩) ∈ c.unacked_messages →
      now - ls < c.resend_time →
      (c.unacked_messages.map Prod.fst).Nodup →
      message_id ∉ emittedIds (c.get_packets_to_send avail now).1)
    ∧ (∀ (c : SendChannelReliable) (avail now message_id : Nat)
        (um : UnackedMessage),
      (message_id, um) ∈ c.unacked_messages →
      sumLens c.unacked_messages ≤ avail →
      (um.last_sent = none ∨
        ∃ ls, um.last_sent = some ls ∧ c.resend_time ≤ now - ls) →
      message_id ∈ emittedIds (c.get_packets_to_send avail now).1)
    ∧ (∀ (c : SendChannelReliable) (message_id : Nat)
        (um : UnackedMessage),
      btLookup message_id c.unacked_messages = some um →
      (c.process_message_ack message_id).unacked_messages
        = btRemove message_id c.unacked_messages ∧
      (c.process_message_ack message_id).memory_usage_bytes
        = c.memory_usage_bytes - um.message.length)
    ∧ ((SendChannelReliable.new 1 200 10000).send_message
        (List.replicate 100 7) = .ok s2Channel
      ∧ (s2Channel.get_packets_to_send 60000 0).1
        = [Packet.SmallReliable 1 0 0 0 65535 0 [(0, List.replicate 100 7)]]
      ∧ ((s2Channel.get_packets_to_send 60000 0).2.2.get_packets_to_send
          60000 100).1 = []
      ∧ emittedIds ((s2Channel.get_packets_to_send
          60000 0).2.2.get_packets_to_send 60000 201).1 = [0]
      ∧ ((s2Channel.get_packets_to_send 60000 0).2.2.process_message_ack
          0).unacked_messages = []
      ∧ ((s2Channel.get_packets_to_send 60000 0).2.2.process_message_ack
          0).memory_usage_bytes = 0
      ∧ (s2Channel.get_packets_to_send 60000 0).2.2.memory_usage_bytes
          = 100) := by
  refine ⟨?_, ?_, ?_, rfl, rfl, rfl, rfl, rfl, rfl, rfl⟩
  · intro c avail now message_id msg ls hmem hrec hnodup
    rw [gpts_emittedIds]
    exact scanEmit_not_mem_of_recent c.resend_time now c.unacked_messages
      avail message_id msg ls hmem hrec hnodup
  · intro c avail now message_id um hmem hsum hdue
    rw [gpts_emittedIds]
    exact scanEmit_mem_of_due c.resend_time now c.unacked_messages avail
      message_id um hmem hsum hdue
  · intro c message_id um hl
    have happ : c.process_message_ack message_id
        = { c with
            unacked_messages := btRemove message_id c.unacked_messages
            memory_usage_bytes :=
              c.memory_usage_bytes - um.message.length } := by
      unfold SendChannelReliable.process_message_ack
      rw [hl]
    rw [happ]
    exact ⟨rfl, rfl⟩

/-- C8 (witness): the due-message law applied at the S2 channel at
t=0 (never sent, budget 60000 covers the 100-byte queue), and the ack
law at a singleton map; hypotheses discharged by evaluation. -/
theorem claim_C8_resend_time_gating_witness :
    (0 : Nat) ∈ emittedIds (s2Channel.get_packets_to_send 60000 0).1 ∧
    ((s2Channel.process_message_ack 0).unacked_messages
        = btRemove 0 s2Channel.unacked_messages ∧
      (s2Channel.process_message_ack 0).memory_usage_bytes
        = s2Channel.memory_usage_bytes - (List.replicate 100 7).length) :=
  ⟨claim_C8_resend_time_gating.2.1 s2Channel 60000 0 0
    ⟨List.replicate 100 7, none⟩ (by decide) (by decide) (Or.inl rfl),
   claim_C8_resend_time_gating.2.2.1 s2Channel 0
    ⟨List.replicate 100 7, none⟩ (by decide)⟩

/-! ## Claim C9: packet sequence ids wrap modulo 2^16 -/

/-- `n` consecutive 16-bit sequence ids starting at `s`. -/
def seqsFrom (s n : Nat) : List Nat :=
  (List.range n).map (fun k => (s + k) % 65536)

theorem seqsFrom_cons (s n : Nat) (hs : s < 65536) :
    seqsFrom s (n + 1) = s :: seqsFrom (succ16 s) n := by
  unfold seqsFrom succ16
  rw [List.range_succ_eq_map, List.map_cons, List.map_map]
  congr 1
  · show (s + 0) % 65536 = s
    rw [Nat.add_zero, Nat.mod_eq_of_lt hs]
  · apply List.map_congr_left
    intro k _
    show (s + (k + 1)) % 65536 = ((s + 1) % 65536 + k) % 65536
    rw [Nat.mod_add_mod]
    congr 1
    omega

theorem seqsFrom_snoc (s n : Nat) :
    seqsFrom s (n + 1) = seqsFrom s n ++ [(s + n) % 65536] := by
  unfold seqsFrom
  rw [List.range_succ, List.map_append]
  rfl

theorem gptsStep_packets (cid rt now : Nat) (st : GptsState)
    (e : Nat × UnackedMessage) :
    ((gptsStep cid rt now st e).packets = st.packets ∧
      (gptsStep cid rt now st e).seq = st.seq) ∨
    (∃ small, (gptsStep cid rt now st e).packets
        = st.packets ++ [Packet.SmallReliable cid 0 0 st.seq 65535 0 small] ∧
      (gptsStep cid rt now st e).seq = succ16 st.seq) := by
  unfold gptsStep
  by_cases h : shouldEmit rt now st.avail e.2
  · rw [if_pos h]
    by_cases h2 : st.smallBytes
        + (e.2.message.length + varint_len e.2.message.length
          + varint_len e.1) > MAX_MESSAGES_LENGTH
    · right
      refine ⟨st.small, ?_, ?_⟩
      · show ({(if st.smallBytes + _ > MAX_MESSAGES_LENGTH
            then _ else st : GptsState) with
            avail := _, smallBytes := _, small := _,
            entries := _}).packets = _
        rw [if_pos h2]
      · show ({(if st.smallBytes + _ > MAX_MESSAGES_LENGTH
            then _ else st : GptsState) with
            avail := _, smallBytes := _, small := _,
            entries := _}).seq = _
        rw [if_pos h2]
    · left
      constructor
      · show ({(if st.smallBytes + _ > MAX_MESSAGES_LENGTH
            then _ else st : GptsState) with
            avail := _, smallBytes := _, small := _,
            entries := _}).packets = _
        rw [if_neg h2]
      · show ({(if st.smallBytes + _ > MAX_MESSAGES_LENGTH
            then _ else st : GptsState) with
            avail := _, smallBytes := _, small := _,
            entries := _}).seq = _
        rw [if_neg h2]
  · rw [if_neg h]
    left
    exact ⟨rfl, rfl⟩

theorem gptsFold_seqs (cid rt now : Nat) :
    ∀ (l : List (Nat × UnackedMessage)) (st : GptsState), st.seq < 65536 →
      ∃ ps : List Packet,
        (l.foldl (gptsStep cid rt now) st).packets = st.packets ++ ps ∧
        ps.map Packet.seqId = seqsFrom st.seq ps.length ∧
        (l.foldl (gptsStep cid rt now) st).seq
          = (st.seq + ps.length) % 65536 ∧
        (l.foldl (gptsStep cid rt now) st).seq < 65536 := by
  intro l
  induction l with
  | nil =>
    intro st hs
    exact ⟨[], by simp, rfl,
      by simp [Nat.mod_eq_of_lt hs], by simpa using hs⟩
  | cons e rest ih =>
    intro st hs
    rw [List.foldl_cons]
    rcases gptsStep_packets cid rt now st e with ⟨hp, hseq⟩ |
      ⟨small, hp, hseq⟩
    · obtain ⟨ps, h1, h2, h3, h4⟩ := ih (gptsStep cid rt now st e)
        (by rw [hseq]; exact hs)
      exact ⟨ps, by rw [h1, hp], by rw [h2, hseq],
        by rw [h3, hseq], h4⟩
    · have hs2 : (gptsStep cid rt now st e).seq < 65536 := by
        rw [hseq]
        unfold succ16
        omega
      obtain ⟨ps, h1, h2, h3, h4⟩ := ih (gptsStep cid rt now st e) hs2
      refine ⟨Packet.SmallReliable cid 0 0 st.seq 65535 0 small :: ps,
        ?_, ?_, ?_, h4⟩
      · rw [h1, hp, List.append_assoc]
        rfl
      · rw [List.map_cons, h2, hseq]
        show st.seq :: seqsFrom (succ16 st.seq) ps.length
          = seqsFrom st.seq (ps.length + 1)
        rw [seqsFrom_cons st.seq ps.length hs]
      · rw [h3, hseq]
        show ((st.seq + 1) % 65536 + ps.length) % 65536
          = (st.seq + (ps.length + 1)) % 65536
        rw [Nat.mod_add_mod]
        congr 1
        omega

theorem gpts_seqIds (c : SendChannelReliable) (avail now : Nat)
    (h : c.next_package_sequence_id < 65536) :
    ∃ n, (c.get_packets_to_send avail now).1.map Packet.seqId
        = seqsFrom c.next_package_sequence_id n ∧
      (c.get_packets_to_send avail now).2.2.next_package_sequence_id
        = (c.next_package_sequence_id + n) % 65536 := by
  unfold SendChannelReliable.get_packets_to_send
  by_cases he : c.unacked_messages.isEmpty
  · rw [if_pos he]
    exact ⟨0, rfl, by show c.next_package_sequence_id = _; omega⟩
  · rw [if_neg he]
    obtain ⟨ps, h1, h2, h3, h4⟩ := gptsFold_seqs c.channel_id c.resend_time
      now c.unacked_messages
      ⟨avail, [], [], 0, c.next_package_sequence_id, []⟩ h
    dsimp only
    set st := c.unacked_messages.foldl
      (gptsStep c.channel_id c.resend_time now)
      ⟨avail, [], [], 0, c.next_package_sequence_id, []⟩ with hst
    by_cases h5 : st.small.isEmpty
    · rw [if_pos h5]
      refine ⟨ps.length, ?_, ?_⟩
      · show st.packets.map Packet.seqId = _
        rw [h1]
        simpa using h2
      · show st.seq = _
        exact h3
    · rw [if_neg h5]
      refine ⟨ps.length + 1, ?_, ?_⟩
      · show (st.packets ++ [Packet.SmallReliable c.channel_id 0 0 st.seq
          65535 0 st.small]).map Packet.seqId = _
        rw [List.map_append, h1]
        rw [seqsFrom_snoc]
        simp [Packet.seqId, h2, h3]
      · show succ16 st.seq = _
        rw [h3]
        unfold succ16
        rw [Nat.mod_add_mod, Nat.add_assoc]

/-- C9 concrete-wrap channel: one unacked 1-byte message with the
sequence counter at 65535. -/
def c9Channel : SendChannelReliable :=
  ⟨1, [(0, ⟨[9], none⟩)], 65535, 1, 200, 1000, 1⟩

/-- C9: each `get_packets_to_send` call emits packets with consecutive
sequence ids modulo 2^16 starting at the current counter (strictly
increasing mod 2^16) and advances the counter by the packet count mod
2^16; concretely, with the counter at 65535 the first emission carries
seq 65535, the counter wraps to 0, the next emission carries seq 0, and
ack decoding of anchor=0, mask=0b11 yields {0, 65535}. -/
theorem claim_C9_sequence_id_wrap :
    (∀ (c : SendChannelReliable) (avail now : Nat),
      c.next_package_sequence_id < 65536 →
      ∃ n, (c.get_packets_to_send avail now).1.map Packet.seqId
          = seqsFrom c.next_package_sequence_id n ∧
        (c.get_packets_to_send avail now).2.2.next_package_sequence_id
          = (c.next_package_sequence_id + n) % 65536)
    ∧ (c9Channel.get_packets_to_send 60000 0).1.map Packet.seqId = [65535]
    ∧ (c9Channel.get_packets_to_send 60000 0).2.2.next_package_sequence_id
        = 0
    ∧ ((c9Channel.get_packets_to_send 60000 0).2.2.get_packets_to_send
        60000 200).1.map Packet.seqId = [0]
    ∧ get_acked_packet_ids 0 3 = [0, 65535] := by
  exact ⟨fun c avail now h => gpts_seqIds c avail now h, rfl, rfl, rfl, rfl⟩

/-- C9 (witness): the consecutive-sequence-id law applied at the
concrete wrap channel, hypothesis discharged by evaluation. -/
theorem claim_C9_sequence_id_wrap_witness :
    ∃ n, (c9Channel.get_packets_to_send 60000 0).1.map Packet.seqId
        = seqsFrom 65535 n ∧
      (c9Channel.get_packets_to_send
        60000 0).2.2.next_package_sequence_id = (65535 + n) % 65536 :=
  claim_C9_sequence_id_wrap.1 c9Channel 60000 0 (by decide)

/-! ## Claim C10: Disconnected is terminal and inert -/

/-- C10: once a connection is `Disconnected`, `set_connected`,
`set_connecting` and `disconnect_with_reason` leave it entirely
unchanged (the status is terminal), and the public operations are
no-ops: `send_message` and `process_packet` return the state unchanged,
`receive_message` yields nothing, and `get_packets_to_send` yields the
empty list — channels and statistics included, since the whole record
is returned untouched. -/
theorem claim_C10_disconnected_is_terminal_noop :
    (∀ (c : UnityClient) (player_id : List Nat),
      c.is_disconnected = true →
      c.set_connected player_id = c ∧ c.set_connecting = c ∧
      ∀ reason, c.disconnect_with_reason reason = c)
    ∧ (∀ (c : UnityClient) (channel_id : Nat) (message : List Nat),
      c.is_disconnected = true →
      c.send_message channel_id message = some c)
    ∧ (∀ (c : UnityClient) (channel_id : Nat),
      c.is_disconnected = true →
      c.receive_message channel_id = some (none, c))
    ∧ (∀ (c : UnityClient) (wallNow : Nat) (packet : List Nat),
      c.is_disconnected = true →
      c.process_packet wallNow packet = some c)
    ∧ (∀ (c : UnityClient) (wallNow : Nat),
      c.is_disconnected = true →
      c.get_packets_to_send wallNow = ([], c)) := by
  refine ⟨?_, ?_, ?_, ?_, ?_⟩
  · intro c player_id h
    refine ⟨?_, ?_, ?_⟩
    · unfold UnityClient.set_connected
      rw [if_pos h]
    · unfold UnityClient.set_connecting
      rw [if_pos h]
    · intro reason
      unfold UnityClient.disconnect_with_reason
      rw [if_pos h]
  · intro c channel_id message h
    unfold UnityClient.send_message
    rw [if_pos h]
  · intro c channel_id h
    unfold UnityClient.receive_message
    rw [if_pos h]
  · intro c wallNow packet h
    unfold UnityClient.process_packet
    rw [if_pos h]
  · intro c wallNow h
    unfold UnityClient.get_packets_to_send
    rw [if_pos h]

/-- A concrete disconnected client. -/
def c10Client : UnityClient :=
  { current_time := 0
    sent_packets := []
    pending_acks := []
    new_ack_to_send := false
    ack_process_start_instant := 0
    channel_send_order :=
      [ChannelOrder.Unreliable 1, ChannelOrder.Unreliable 0]
    send_unreliable_channel := SendChannelUnreliable.new 0 1000
    receive_unreliable_channel := ReceiveChannelUnreliable.new 0 1000
    send_reliable_channel := SendChannelReliable.new 1 200 1000
    receive_reliable_channel := ReceiveChannelReliable.new 1000
    stats := ConnectionStats.new
    available_bytes_per_tick := 60000
    connection_status :=
      ClientConnectionStatus.Disconnected DisconnectReason.Transport
    rtt := 0
    player_id := [] }

/-- C10 (witness): the no-op laws applied at a concrete disconnected
client; the disconnected hypothesis is discharged by evaluation. -/
theorem claim_C10_disconnected_is_terminal_noop_witness :
    c10Client.send_message 1 [1, 2] = some c10Client ∧
    c10Client.get_packets_to_send 5 = ([], c10Client) ∧
    c10Client.set_connected [112] = c10Client :=
  ⟨claim_C10_disconnected_is_terminal_noop.2.1 c10Client 1 [1, 2] rfl,
   claim_C10_disconnected_is_terminal_noop.2.2.2.2 c10Client 5 rfl,
   (claim_C10_disconnected_is_terminal_noop.1 c10Client [112] rfl).1⟩
